import Mathlib

/-!
Shallow embedding of the Api_FastApi_AcademicApp backend (app/models.py,
app/auth/*.py, app/routers/*.py, app/main_factory.py) and proofs about its
data model, authentication flow and per-endpoint authorization checks.

Modelling conventions:
* Database tables are lists of row records; the SQLModel classes of
  app/models.py become Lean structures with the same field names.
* A request handler becomes a function `... → Except HTTPError α`
  (for read-only endpoints) or `... → Except HTTPError (DB × α)` (for
  mutating endpoints).  An `HTTPException` raised by the Python code is
  `Except.error`; since FastAPI only commits the session on the success
  path, an error leaves the database unchanged (`DB.after`).
* Declared database constraints are enforced at commit time, exactly as
  the schema of app/models.py declares them: the `UniqueConstraint
  ("student_id", "subject_id", "score_type")` on `Score` rejects an
  INSERT/UPDATE that would duplicate a triple, and the NOT NULL foreign
  key columns (`Score.professor_id`, `Score.student_id`,
  `Score.subject_id`, `Subject.professor_id`) reject SQLAlchemy's
  default delete-time FK nullification, so deleting a referenced row
  fails the commit (surfacing as a 500 response).  Association rows of
  the `student_subject_link` secondary table are deleted together with
  either endpoint of the link, which is SQLAlchemy's behaviour for
  `Relationship(link_model=...)`.
* bcrypt hashing (passlib) and JWT serialization (python-jose) are
  external libraries; they are modelled abstractly: a `CryptContext` is
  an arbitrary pair of hash/verify functions, and a JWT is a record of
  its payload, signing key and algorithm, with `jwt_decode` succeeding
  exactly when key and algorithm match and the token is not expired.
  Time is a `Nat` of seconds.
* Floats (`Score.valor`) take part in no arithmetic anywhere in the
  code; the value is modelled as `Int`.
-/

namespace App

/-- Roles disponibles en el sistema (models.Role). -/
inductive Role where
  | student
  | professor
  | admin
deriving DecidableEq, Repr

/-- Géneros disponibles (models.Gender). -/
inductive Gender where
  | male
  | female
deriving DecidableEq, Repr

/-- Calendar date (datetime.date); only compared componentwise. -/
structure DateV where
  year : Nat
  month : Nat
  day : Nat
deriving DecidableEq, Repr

/-- Row of the role_user table (models.Role_User). -/
structure Role_User where
  role_id : Nat
  role : Role
deriving DecidableEq, Repr

/-- Row of the gender_user table (models.Gender_User). -/
structure Gender_User where
  gender_id : Nat
  gender : Gender
deriving DecidableEq, Repr

/-- Row of the user table (models.User / models.UserBase). -/
structure User where
  user_id : Nat
  name_complete : String
  name_user : String
  cedula : String
  email : String
  birth_date : Option DateV
  age : Option Int
  gender_id : Nat
  role_id : Nat
  hashed_password : String
  specialization : Option String
  career : Option String
deriving DecidableEq, Repr

/-- Row of the subject table (models.Subject / models.SubjectBase). -/
structure Subject where
  subject_id : Nat
  name_subject : String
  description : Option String
  professor_id : Nat
deriving DecidableEq, Repr

/-- Row of the student_subject_link table (models.StudentSubjectLink). -/
structure StudentSubjectLink where
  student_id : Nat
  subject_id : Nat
deriving DecidableEq, Repr

/-- Row of the score table (models.Score / models.ScoreBase). -/
structure Score where
  score_id : Nat
  score_type : String
  valor : Int
  fecha : Option DateV
  comentario : Option String
  subject_id : Nat
  professor_id : Nat
  student_id : Nat
deriving DecidableEq, Repr

/-- The relational database state: one list per table of models.py. -/
structure DB where
  roles : List Role_User
  genders : List Gender_User
  users : List User
  subjects : List Subject
  links : List StudentSubjectLink
  scores : List Score
deriving DecidableEq, Repr

/-- Application settings (app/config.py). -/
structure Settings where
  SECRET_KEY : String
  ALGORITHM : String
  ACCESS_TOKEN_EXPIRE_MINUTES : Nat
deriving DecidableEq, Repr

/-- Abstract model of passlib's CryptContext (models.pwd_context): an
opaque hash function together with its verifier.  `verify` takes the
plain password first, as `pwd_context.verify(password, hash)` does. -/
structure CryptContext where
  hash : String → String
  verify : String → String → Bool

/-- An HTTPException: status code, detail message and extra headers. -/
structure HTTPError where
  status : Nat
  detail : String
  headers : List (String × String)
deriving DecidableEq, Repr

/-- Claims of a JWT payload.  `jwt.decode(...).get("sub")` may be absent,
hence the `Option` claims; `exp` is always set by `create_access_token`
but its check lives in `jwt_decode`. -/
structure TokenPayload where
  sub : Option String
  user_id : Option Nat
  role : Option Role
  exp : Nat
deriving DecidableEq, Repr

/-- A JWT bearer token: either a string that does not parse as a JWT at
all, or a signed payload (the signature is modelled by recording the
signing key and algorithm). -/
inductive JWTToken where
  | malformed (raw : String)
  | signed (payload : TokenPayload) (key : String) (alg : String)
deriving DecidableEq, Repr

/-- Response body of the /token endpoint (schemas.Token). -/
structure Token where
  access_token : JWTToken
  token_type : String
deriving DecidableEq, Repr

/-- A parsed Authorization header, after
`get_authorization_scheme_param`: the scheme word and, when present, the
token part.  `token = none` models a header with an empty token. -/
structure AuthHeader where
  scheme : String
  token : Option JWTToken
deriving DecidableEq, Repr

/-! ### Request schemas (app/schemas.py) -/

/-- schemas.UserCreate. -/
structure UserCreate where
  name_complete : String
  name_user : String
  cedula : String
  email : String
  gender : Gender
  birth_date : Option DateV
  password : String
  role : Role
  specialization : Option String
  career : Option String
deriving DecidableEq, Repr

/-- schemas.UserUpdate, after `model_dump(exclude_unset=True)` composed
with the handler's `if v is not None` filter: a field is applied exactly
when it is `some`. -/
structure UserUpdate where
  name_complete : Option String
  email : Option String
  birth_date : Option DateV
  specialization : Option String
  career : Option String
  password : Option String
deriving DecidableEq, Repr

/-- schemas.ScoreCreate. -/
structure ScoreCreate where
  valor : Int
  score_type : String
  fecha : Option DateV
  comentario : Option String
  student_id : Nat
  subject_id : Nat
deriving DecidableEq, Repr

/-- schemas.ScoreBase as seen by update_score through
`model_dump(exclude_unset=True)`: `valor` and `score_type` are required
fields so every valid request sets them; `fecha`/`comentario` may be
unset (outer `none`) or set to a value or null (inner option). -/
structure ScoreUpdate where
  valor : Int
  score_type : String
  fecha : Option (Option DateV)
  comentario : Option (Option String)
deriving DecidableEq, Repr

/-- schemas.SubjectCreate as seen by update_subject through
`model_dump(exclude_unset=True)`: `name_subject` and `professor_id` are
required, `description` may be unset. -/
structure SubjectUpdate where
  name_subject : String
  description : Option (Option String)
  professor_id : Nat
deriving DecidableEq, Repr

/-- schemas.SubjectCreate as used by create_subject. -/
structure SubjectCreate where
  name_subject : String
  description : Option String
  professor_id : Nat
deriving DecidableEq, Repr

/-! ### Session queries -/

/-- session.get(models.User, id): primary key lookup. -/
def DB.getUser (db : DB) (id : Nat) : Option User :=
  db.users.find? (fun u => u.user_id == id)

/-- session.get(models.Subject, id): primary key lookup. -/
def DB.getSubject (db : DB) (id : Nat) : Option Subject :=
  db.subjects.find? (fun s => s.subject_id == id)

/-- session.get(models.Score, id): primary key lookup. -/
def DB.getScore (db : DB) (id : Nat) : Option Score :=
  db.scores.find? (fun s => s.score_id == id)

/-- Autoincrement primary key for a new user row. -/
def DB.nextUserId (db : DB) : Nat :=
  (db.users.map (fun u => u.user_id)).foldr max 0 + 1

/-- Autoincrement primary key for a new subject row. -/
def DB.nextSubjectId (db : DB) : Nat :=
  (db.subjects.map (fun s => s.subject_id)).foldr max 0 + 1

/-- Autoincrement primary key for a new score row. -/
def DB.nextScoreId (db : DB) : Nat :=
  (db.scores.map (fun s => s.score_id)).foldr max 0 + 1

/-- State observed after running a mutating endpoint: FastAPI commits
only on the success path, so an HTTPException leaves the database as it
was. -/
def DB.after {α : Type} (db : DB) : Except HTTPError (DB × α) → DB
  | Except.error _ => db
  | Except.ok (db', _) => db'

/-! ### app/auth/utils.py -/

/-- get_role_enum: resolve a role_id to its Role enum, 404 when the
role_user table has no such row. -/
def get_role_enum (db : DB) (role_id : Nat) : Except HTTPError Role :=
  match db.roles.find? (fun r => r.role_id == role_id) with
  | some r => Except.ok r.role
  | none => Except.error ⟨404, "Role no encontrado en la DB", []⟩

/-- get_role_id: resolve a Role enum to its role_id.  The Python guard
`if not rol_id` is falsy both for a missing row and for the id 0. -/
def get_role_id (db : DB) (rol : Role) : Except HTTPError Nat :=
  match db.roles.find? (fun r => r.role == rol) with
  | some r =>
      if r.role_id == 0 then Except.error ⟨404, "Role no encontrado en la DB", []⟩
      else Except.ok r.role_id
  | none => Except.error ⟨404, "Role no encontrado en la DB", []⟩

/-- get_gender_id: resolve a Gender enum to its gender_id. -/
def get_gender_id (db : DB) (genero : Gender) : Except HTTPError Nat :=
  match db.genders.find? (fun g => g.gender == genero) with
  | some g =>
      if g.gender_id == 0 then Except.error ⟨404, "Gender no encontrado en la DB", []⟩
      else Except.ok g.gender_id
  | none => Except.error ⟨404, "Gender no encontrado en la DB", []⟩

/-- Public view of a user (schemas.UserPublic). -/
structure UserPublic where
  user_id : Nat
  name_complete : String
  name_user : String
  cedula : String
  email : String
  gender : Gender
  birth_date : Option DateV
  age : Option Int
  role : Role
  specialization : Option String
  career : Option String
deriving DecidableEq, Repr

/-- convert_user_to_public: requires the role/gender relationships to
resolve, otherwise the handler's ValueError surfaces as a 500. -/
def convert_user_to_public (db : DB) (u : User) : Except HTTPError UserPublic :=
  match db.genders.find? (fun g => g.gender_id == u.gender_id),
        db.roles.find? (fun r => r.role_id == u.role_id) with
  | some g, some r =>
      Except.ok ⟨u.user_id, u.name_complete, u.name_user, u.cedula, u.email,
                 g.gender, u.birth_date, u.age, r.role, u.specialization, u.career⟩
  | _, _ => Except.error ⟨500, "Relaciones no cargadas", []⟩

/-! ### app/auth/auth.py -/

/-- Data dict passed by `login_for_access_token` to
`create_access_token` (before the `exp` claim is added). -/
structure TokenClaims where
  sub : Option String
  user_id : Option Nat
  role : Option Role
deriving DecidableEq, Repr

/-- create_access_token: copies the claims, adds `exp = now +
(expires_delta or minutes(ACCESS_TOKEN_EXPIRE_MINUTES))` and signs with
SECRET_KEY / ALGORITHM.  Durations are seconds. -/
def create_access_token (s : Settings) (data : TokenClaims)
    (expires_delta : Option Nat) (now : Nat) : JWTToken :=
  JWTToken.signed
    ⟨data.sub, data.user_id, data.role,
      now + expires_delta.getD (60 * s.ACCESS_TOKEN_EXPIRE_MINUTES)⟩
    s.SECRET_KEY s.ALGORITHM

/-- jwt.decode(token, key, algorithms=[alg]): succeeds exactly when the
token parses, was signed with the given key and algorithm, and its exp
claim lies in the future. -/
def jwt_decode (tok : JWTToken) (key : String) (alg : String) (now : Nat) :
    Option TokenPayload :=
  match tok with
  | JWTToken.malformed _ => none
  | JWTToken.signed p k a =>
      if k == key && a == alg && now < p.exp then some p else none

/-- The 401 raised by get_current_user for any credential problem. -/
def credentials_exception : HTTPError :=
  ⟨401, "No se pudieron validar las credenciales", [("WWW-Authenticate", "Bearer")]⟩

/-- get_current_user: decode the bearer token, require the sub and
user_id claims, and look the user up by name and id. -/
def get_current_user (db : DB) (s : Settings) (now : Nat) (token : JWTToken) :
    Except HTTPError User :=
  match jwt_decode token s.SECRET_KEY s.ALGORITHM now with
  | none => Except.error credentials_exception
  | some payload =>
      match payload.sub, payload.user_id with
      | some username, some uid =>
          match db.users.find? (fun u => u.name_user == username && u.user_id == uid) with
          | some u => Except.ok u
          | none => Except.error credentials_exception
      | _, _ => Except.error credentials_exception

/-- get_current_admin_user: 403 unless the caller's role resolves to
ADMIN. -/
def get_current_admin_user (db : DB) (current_user : User) : Except HTTPError User := do
  let current_user_role ← get_role_enum db current_user.role_id
  if current_user_role ≠ Role.admin then
    Except.error ⟨403, "Se requieren permisos de administrador", []⟩
  else
    Except.ok current_user

/-- get_current_professor_user: 403 unless the caller's role resolves to
PROFESSOR. -/
def get_current_professor_user (db : DB) (current_user : User) : Except HTTPError User := do
  let current_user_role ← get_role_enum db current_user.role_id
  if current_user_role ≠ Role.professor then
    Except.error ⟨403, "Se requieren permisos de profesor", []⟩
  else
    Except.ok current_user

/-! ### app/auth/permissions.py -/

/-- get_optional_admin_or_anon: anonymous (no header or empty token)
gives `none`; otherwise the whole try-block — token validation, role
lookup and even the 403 HTTPException raised for a non-admin role — is
wrapped by `except Exception: return None`, so every failure collapses
to anonymous access and only a valid ADMIN token yields a user. -/
def get_optional_admin_or_anon (db : DB) (s : Settings) (now : Nat)
    (auth : Option AuthHeader) : Option User :=
  match auth with
  | none => none
  | some h =>
      match h.token with
      | none => none
      | some tok =>
          match (do
            let user ← get_current_user db s now tok
            let user_role ← get_role_enum db user.role_id
            if user_role ≠ Role.admin then
              Except.error (⟨403, "Solo administradores pueden crear usuarios", []⟩ : HTTPError)
            else
              Except.ok user : Except HTTPError User) with
          | Except.ok u => some u
          | Except.error _ => none

/-! ### app/main_factory.py -/

/-- login_for_access_token (the /token endpoint): look the user up by
name_user, verify the password, resolve the role relationship and issue
a signed token. -/
def login_for_access_token (db : DB) (s : Settings) (ctx : CryptContext)
    (now : Nat) (username password : String) : Except HTTPError Token :=
  match db.users.find? (fun u => u.name_user == username) with
  | none =>
      Except.error ⟨401, "Credenciales inválidas", [("WWW-Authenticate", "Bearer")]⟩
  | some user =>
      if !(ctx.verify password user.hashed_password) then
        Except.error ⟨401, "Credenciales inválidas", [("WWW-Authenticate", "Bearer")]⟩
      else
        match db.roles.find? (fun r => r.role_id == user.role_id) with
        | none => Except.error ⟨500, "Error en configuración de roles", []⟩
        | some rr =>
            Except.ok ⟨create_access_token s
              ⟨some user.name_user, some user.user_id, some rr.role⟩
              (some (60 * s.ACCESS_TOKEN_EXPIRE_MINUTES)) now, "bearer"⟩

/-! ### app/routers/users_routers.py -/

/-- calculate_age: Python's tuple comparison `(today.month, today.day) <
(birth_date.month, birth_date.day)`, subtraction over the integers. -/
def calculate_age (today : DateV) (birth_date : Option DateV) : Option Int :=
  match birth_date with
  | none => none
  | some b =>
      some ((today.year : Int) - (b.year : Int) -
        (if (today.month < b.month ∨ (today.month = b.month ∧ today.day < b.day))
         then 1 else 0))

/-- create_user: uniqueness of email/name_user/cedula, role-specific
field validation, enum-to-id resolution, hashing and insertion.  The
`current_user` injected by get_optional_admin_or_anon is never consulted
(the admin check in the handler body is commented out in the source). -/
def create_user (db : DB) (today : DateV) (ctx : CryptContext)
    (current_user : Option User) (user : UserCreate) : Except HTTPError (DB × User) := do
  if db.users.any (fun u =>
      u.email == user.email || u.name_user == user.name_user || u.cedula == user.cedula) then
    Except.error ⟨409, "El email, nombre de usuario o cédula ya están registrados", []⟩
  else if user.role ≠ Role.professor ∧
      user.specialization ≠ none ∧ user.specialization ≠ some "" then
    Except.error ⟨422, "Solo los profesores pueden tener especialización", []⟩
  else if user.role ≠ Role.student ∧
      user.career ≠ none ∧ user.career ≠ some "" then
    Except.error ⟨422, "Solo los estudiantes pueden tener carrera", []⟩
  else do
    let role_id ← get_role_id db user.role
    let gender_id ← get_gender_id db user.gender
    let hashed_password := ctx.hash user.password
    let age := calculate_age today user.birth_date
    let db_user : User :=
      ⟨db.nextUserId, user.name_complete, user.name_user, user.cedula, user.email,
        user.birth_date, age, gender_id, role_id, hashed_password,
        user.specialization, user.career⟩
    Except.ok ({ db with users := db.users ++ [db_user] }, db_user)

/-- update_my_user: patch the caller's own row.  Only fields sent with a
non-null value are applied; specialization/career are gated on the
caller's role; a new birth_date recomputes age; a password is stored
hashed. -/
def update_my_user (db : DB) (today : DateV) (ctx : CryptContext)
    (current_user : User) (upd : UserUpdate) : Except HTTPError (DB × User) := do
  match db.getUser current_user.user_id with
  | none => Except.error ⟨404, "Usuario no encontrado", []⟩
  | some user => do
      let user_role ← get_role_enum db user.role_id
      if upd.specialization ≠ none ∧ user_role ≠ Role.professor then
        Except.error ⟨422, "Solo los profesores pueden tener especialización", []⟩
      else if upd.career ≠ none ∧ user_role ≠ Role.student then
        Except.error ⟨422, "Solo los estudiantes pueden tener carrera", []⟩
      else
        let user' : User :=
          { user with
            name_complete := upd.name_complete.getD user.name_complete,
            email := upd.email.getD user.email,
            birth_date := match upd.birth_date with
              | some b => some b
              | none => user.birth_date,
            age := match upd.birth_date with
              | some b => calculate_age today (some b)
              | none => user.age,
            specialization := match upd.specialization with
              | some v => some v
              | none => user.specialization,
            career := match upd.career with
              | some v => some v
              | none => user.career,
            hashed_password := match upd.password with
              | some p => ctx.hash p
              | none => user.hashed_password }
        let users' := db.users.map
          (fun u => if u.user_id == current_user.user_id then user' else u)
        Except.ok ({ db with users := users' }, user')

/-- delete_user: admin-only.  SQLAlchemy's delete-time handling of the
relationships declared in models.py nullifies the NOT NULL foreign keys
of dependent subject/score rows — which the database rejects, failing
the commit — and removes the user's student_subject_link association
rows together with the row itself. -/
def delete_user (db : DB) (current_user : User) (user_id : Nat) :
    Except HTTPError (DB × Unit) := do
  let _ ← get_current_admin_user db current_user
  match db.getUser user_id with
  | none => Except.error ⟨404, "Usuario no encontrado", []⟩
  | some _ =>
      if db.subjects.any (fun s => s.professor_id == user_id) ||
         db.scores.any (fun s => s.professor_id == user_id || s.student_id == user_id) then
        Except.error ⟨500, "IntegrityError: NOT NULL constraint failed", []⟩
      else
        Except.ok ({ db with
          users := db.users.filter (fun u => u.user_id != user_id),
          links := db.links.filter (fun l => l.student_id != user_id) }, ())

/-- list_users: admin-only listing, ordered by name_user, then paged and
converted to the public view. -/
def list_users (db : DB) (current_user : User) (skip limit : Nat) :
    Except HTTPError (List UserPublic) := do
  let _ ← get_current_admin_user db current_user
  let users := (db.users.mergeSort (fun a b => a.name_user ≤ b.name_user)).drop skip |>.take limit
  users.mapM (convert_user_to_public db)

/-! ### app/routers/subjects_routers.py -/

/-- create_subject: the handler builds
`models.Subject(**subject.model_dump(), professor_id=current_user.user_id)`,
but schemas.SubjectCreate itself contains a professor_id field, so the
call passes professor_id twice and always raises TypeError (multiple
values for keyword argument), which FastAPI surfaces as a 500. -/
def create_subject (db : DB) (current_user : User) (_subject : SubjectCreate) :
    Except HTTPError (DB × Subject) := do
  let _ ← get_current_professor_user db current_user
  Except.error ⟨500, "TypeError: got multiple values for keyword argument professor_id", []⟩

/-- update_subject: professor-only, owner-only patch of a subject; the
required fields of schemas.SubjectCreate (name_subject, professor_id)
are always applied, description only when sent. -/
def update_subject (db : DB) (current_user : User) (subject_id : Nat)
    (upd : SubjectUpdate) : Except HTTPError (DB × Subject) := do
  let current_user ← get_current_professor_user db current_user
  match db.getSubject subject_id with
  | none => Except.error ⟨404, "Materia no encontrada", []⟩
  | some db_subject =>
      if db_subject.professor_id ≠ current_user.user_id then
        Except.error ⟨403, "Solo puedes modificar tus propias materias", []⟩
      else
        let s' : Subject :=
          { db_subject with
            name_subject := upd.name_subject,
            description := match upd.description with
              | some d => d
              | none => db_subject.description,
            professor_id := upd.professor_id }
        let subjects' := db.subjects.map
          (fun t => if t.subject_id == subject_id then s' else t)
        Except.ok ({ db with subjects := subjects' }, s')

/-- delete_subject: professor-only, owner-only.  Dependent score rows
would have their NOT NULL subject_id nullified at flush, which the
database rejects; association rows of the link table are removed with
the subject. -/
def delete_subject (db : DB) (current_user : User) (subject_id : Nat) :
    Except HTTPError (DB × Unit) := do
  let current_user ← get_current_professor_user db current_user
  match db.getSubject subject_id with
  | none => Except.error ⟨404, "Materia no encontrada", []⟩
  | some subject =>
      if subject.professor_id ≠ current_user.user_id then
        Except.error ⟨403, "Solo puedes eliminar tus propias materias", []⟩
      else if db.scores.any (fun s => s.subject_id == subject_id) then
        Except.error ⟨500, "IntegrityError: NOT NULL constraint failed", []⟩
      else
        Except.ok ({ db with
          subjects := db.subjects.filter (fun t => t.subject_id != subject_id),
          links := db.links.filter (fun l => l.subject_id != subject_id) }, ())

/-- enroll_student: professor-only.  Checks that the subject and the
user exist and that the subject belongs to the caller, then inserts the
link unless one already exists.  No check of the target user's role is
performed. -/
def enroll_student (db : DB) (current_user : User) (subject_id student_id : Nat) :
    Except HTTPError (DB × String) := do
  let current_user ← get_current_professor_user db current_user
  match db.getSubject subject_id with
  | none => Except.error ⟨404, "Materia no encontrada", []⟩
  | some subject =>
      match db.getUser student_id with
      | none => Except.error ⟨404, "Estudiante no encontrado", []⟩
      | some _student =>
          if subject.professor_id ≠ current_user.user_id then
            Except.error ⟨403, "Solo puedes inscribir estudiantes en tus propias materias", []⟩
          else if db.links.any (fun l =>
              l.student_id == student_id && l.subject_id == subject_id) then
            Except.error ⟨409, "El estudiante ya está inscrito en esta materia", []⟩
          else
            Except.ok ({ db with links := db.links ++ [⟨student_id, subject_id⟩] },
              "Estudiante inscrito exitosamente")

/-- unenroll_student: professor-only, owner-only removal of a link. -/
def unenroll_student (db : DB) (current_user : User) (subject_id student_id : Nat) :
    Except HTTPError (DB × String) := do
  let current_user ← get_current_professor_user db current_user
  match db.getSubject subject_id with
  | none => Except.error ⟨404, "Materia no encontrada", []⟩
  | some subject =>
      if subject.professor_id ≠ current_user.user_id then
        Except.error ⟨403, "Solo puedes desinscribir estudiantes de tus propias materias", []⟩
      else
        match db.links.find? (fun l =>
            l.student_id == student_id && l.subject_id == subject_id) with
        | none => Except.error ⟨404, "Estudiante no inscrito en esta materia", []⟩
        | some _ =>
            Except.ok ({ db with links := db.links.filter (fun l =>
              !(l.student_id == student_id && l.subject_id == subject_id)) },
              "Estudiante desenscrito correctamente")

/-! ### app/routers/scores_routers.py -/

/-- Equality of the (student_id, subject_id, score_type) triple guarded
by the uq_score_unique constraint of models.Score. -/
def sameTriple (s t : Score) : Bool :=
  s.student_id == t.student_id && s.subject_id == t.subject_id && s.score_type == t.score_type

/-- create_score: professor-only.  Checks, in order: the subject exists
(404), the subject belongs to the caller (403), the student exists and
has STUDENT role (404), the student is enrolled (409), and no score with
the same (student, subject, score_type) triple exists (409); then
inserts the score with professor_id set to the caller. -/
def create_score (db : DB) (current_user : User) (score : ScoreCreate) :
    Except HTTPError (DB × Score) := do
  let current_user ← get_current_professor_user db current_user
  match db.getSubject score.subject_id with
  | none => Except.error ⟨404, "Materia no encontrada", []⟩
  | some subject =>
      if subject.professor_id ≠ current_user.user_id then
        Except.error ⟨403, "Solo puedes calificar en tus propias materias", []⟩
      else
        match db.getUser score.student_id with
        | none => Except.error ⟨404, "Estudiante no encontrado", []⟩
        | some student => do
            let student_role ← get_role_enum db student.role_id
            if student_role ≠ Role.student then
              Except.error ⟨404, "Estudiante no encontrado", []⟩
            else if !(db.links.any (fun l =>
                l.student_id == score.student_id && l.subject_id == score.subject_id)) then
              Except.error ⟨409, "El estudiante no está inscrito en esta materia", []⟩
            else
              let db_score : Score :=
                ⟨db.nextScoreId, score.score_type, score.valor, score.fecha,
                  score.comentario, score.subject_id, current_user.user_id, score.student_id⟩
              if db.scores.any (fun t => sameTriple db_score t) then
                Except.error ⟨409,
                  "Ya existe una calificación de este tipo para el estudiante en esta materia", []⟩
              else
                Except.ok ({ db with scores := db.scores ++ [db_score] }, db_score)

/-- get_score: any authenticated user; professors only see their own
scores, students only scores given to them. -/
def get_score (db : DB) (current_user : User) (score_id : Nat) :
    Except HTTPError Score := do
  match db.getScore score_id with
  | none => Except.error ⟨404, "Calificación no encontrada", []⟩
  | some score => do
      let current_role ← get_role_enum db current_user.role_id
      if current_role = Role.professor ∧ score.professor_id ≠ current_user.user_id then
        Except.error ⟨403, "No tienes permiso para ver esta calificación", []⟩
      else if current_role = Role.student ∧ score.student_id ≠ current_user.user_id then
        Except.error ⟨403, "No tienes permiso para ver esta calificación", []⟩
      else
        Except.ok score

/-- update_score: professor-only, owner-only patch.  The handler applies
the sent fields — score_type is required, so it is always rewritten —
and the commit is then subject to the uq_score_unique constraint
declared on models.Score: a rewrite that collides with another row's
(student, subject, score_type) triple fails the commit. -/
def update_score (db : DB) (current_user : User) (score_id : Nat)
    (upd : ScoreUpdate) : Except HTTPError (DB × Score) := do
  let current_user ← get_current_professor_user db current_user
  match db.getScore score_id with
  | none => Except.error ⟨404, "Calificación no encontrada", []⟩
  | some score =>
      if score.professor_id ≠ current_user.user_id then
        Except.error ⟨403, "No puedes modificar calificaciones de otro profesor", []⟩
      else
        let score' : Score :=
          { score with
            valor := upd.valor,
            score_type := upd.score_type,
            fecha := match upd.fecha with
              | some f => f
              | none => score.fecha,
            comentario := match upd.comentario with
              | some c => c
              | none => score.comentario }
        if db.scores.any (fun t => t.score_id != score.score_id && sameTriple score' t) then
          Except.error ⟨500, "IntegrityError: UNIQUE constraint failed: uq_score_unique", []⟩
        else
          let scores' := db.scores.map
            (fun t => if t.score_id == score_id then score' else t)
          Except.ok ({ db with scores := scores' }, score')

/-- delete_score: professor-only, owner-only removal. -/
def delete_score (db : DB) (current_user : User) (score_id : Nat) :
    Except HTTPError (DB × Unit) := do
  let current_user ← get_current_professor_user db current_user
  match db.getScore score_id with
  | none => Except.error ⟨404, "Calificación no encontrada", []⟩
  | some score =>
      if score.professor_id ≠ current_user.user_id then
        Except.error ⟨403, "No puedes eliminar calificaciones de otro profesor", []⟩
      else
        let scores' := db.scores.filter (fun t => t.score_id != score_id)
        Except.ok ({ db with scores := scores' }, ())

/-- scores_por_estudiante: the target must exist and have STUDENT role;
a STUDENT caller may only request their own scores. -/
def scores_por_estudiante (db : DB) (current_user : User) (student_id : Nat) :
    Except HTTPError (List Score) := do
  match db.getUser student_id with
  | none => Except.error ⟨404, "Estudiante no encontrado", []⟩
  | some student => do
      let student_role ← get_role_enum db student.role_id
      if student_role ≠ Role.student then
        Except.error ⟨404, "Estudiante no encontrado", []⟩
      else do
        let current_role ← get_role_enum db current_user.role_id
        if current_role = Role.student ∧ current_user.user_id ≠ student_id then
          Except.error ⟨403, "Solo puedes ver tus propias calificaciones", []⟩
        else
          Except.ok (db.scores.filter (fun s => s.student_id == student_id))

/-! ### Invariants and reachability -/

/-- Existence of a user row with the given id. -/
def DB.existsUser (db : DB) (id : Nat) : Bool :=
  db.users.any (fun u => u.user_id == id)

/-- Existence of a subject row with the given id. -/
def DB.existsSubject (db : DB) (id : Nat) : Bool :=
  db.subjects.any (fun s => s.subject_id == id)

/-- Pairwise distinctness of the (student, subject, score_type) triples
of a score table: the uq_score_unique constraint of models.Score. -/
def scoresUnique : List Score → Bool
  | [] => true
  | s :: rest => rest.all (fun t => !(sameTriple s t)) && scoresUnique rest

/-- Referential integrity of the links claimed by the spec: every score
references an existing subject, professor and student, and every
enrollment link references an existing user and subject. -/
def RefIntegrity (db : DB) : Bool :=
  db.scores.all (fun s =>
    db.existsSubject s.subject_id && db.existsUser s.professor_id &&
      db.existsUser s.student_id) &&
  db.links.all (fun l =>
    db.existsUser l.student_id && db.existsSubject l.subject_id)

/-- Database state after `SQLModel.metadata.create_all` and the lookup
seeding of scripts/init_db.py: the role and gender catalogs hold one row
per enum member and all entity tables are empty. -/
def initDB : DB :=
  ⟨[⟨1, Role.student⟩, ⟨2, Role.professor⟩, ⟨3, Role.admin⟩],
   [⟨1, Gender.male⟩, ⟨2, Gender.female⟩], [], [], [], []⟩

/-- One successful state-changing API call.  Authenticated callers are
rows of the user table (get_current_user returns a row found in it,
lemma `get_current_user_mem`), hence the membership hypotheses. -/
inductive Step : DB → DB → Prop where
  | create_user_step (db : DB) (today : DateV) (ctx : CryptContext)
      (cu : Option User) (uc : UserCreate) (db' : DB) (out : User) :
      create_user db today ctx cu uc = Except.ok (db', out) → Step db db'
  | update_my_user_step (db : DB) (today : DateV) (ctx : CryptContext)
      (u : User) (upd : UserUpdate) (db' : DB) (out : User) :
      u ∈ db.users → update_my_user db today ctx u upd = Except.ok (db', out) → Step db db'
  | delete_user_step (db : DB) (u : User) (uid : Nat) (db' : DB) :
      u ∈ db.users → delete_user db u uid = Except.ok (db', ()) → Step db db'
  | create_subject_step (db : DB) (u : User) (sc : SubjectCreate) (db' : DB) (out : Subject) :
      u ∈ db.users → create_subject db u sc = Except.ok (db', out) → Step db db'
  | update_subject_step (db : DB) (u : User) (sid : Nat) (upd : SubjectUpdate)
      (db' : DB) (out : Subject) :
      u ∈ db.users → update_subject db u sid upd = Except.ok (db', out) → Step db db'
  | delete_subject_step (db : DB) (u : User) (sid : Nat) (db' : DB) :
      u ∈ db.users → delete_subject db u sid = Except.ok (db', ()) → Step db db'
  | enroll_student_step (db : DB) (u : User) (sid stid : Nat) (db' : DB) (msg : String) :
      u ∈ db.users → enroll_student db u sid stid = Except.ok (db', msg) → Step db db'
  | unenroll_student_step (db : DB) (u : User) (sid stid : Nat) (db' : DB) (msg : String) :
      u ∈ db.users → unenroll_student db u sid stid = Except.ok (db', msg) → Step db db'
  | create_score_step (db : DB) (u : User) (sc : ScoreCreate) (db' : DB) (out : Score) :
      u ∈ db.users → create_score db u sc = Except.ok (db', out) → Step db db'
  | update_score_step (db : DB) (u : User) (sid : Nat) (upd : ScoreUpdate)
      (db' : DB) (out : Score) :
      u ∈ db.users → update_score db u sid upd = Except.ok (db', out) → Step db db'
  | delete_score_step (db : DB) (u : User) (sid : Nat) (db' : DB) :
      u ∈ db.users → delete_score db u sid = Except.ok (db', ()) → Step db db'

/-- States reachable from the initialized database through successful
API calls. -/
inductive Reachable : DB → Prop where
  | init : Reachable initDB
  | step (db db' : DB) : Reachable db → Step db db' → Reachable db'

/-- Authenticated callers are rows of the user table. -/
theorem get_current_user_mem (db : DB) (s : Settings) (now : Nat) (tok : JWTToken)
    (u : User) (h : get_current_user db s now tok = Except.ok u) : u ∈ db.users := by
  unfold get_current_user at h
  split at h
  · exact absurd h (by simp)
  · split at h
    · split at h
      · rename_i hfind
        injection h with h
        subst h
        exact List.mem_of_find?_eq_some hfind
      · exact absurd h (by simp)
    · exact absurd h (by simp)

/-! ### Concrete states used by witnesses -/

/-- Hash scheme for witnesses: prefixing with "h". -/
def ctx0 : CryptContext := ⟨fun p => "h" ++ p, fun p h => h == "h" ++ p⟩

/-- Settings for witnesses. -/
def settings0 : Settings := ⟨"secret", "HS256", 30⟩

/-- Minimal user row for witnesses. -/
def mkUser (id : Nat) (name : String) (rid : Nat) : User :=
  ⟨id, name, name, name, name, none, none, 1, rid, "hpw", none, none⟩

/-- Witness state: a student alice, professors bob and carol, admin dan;
bob's subject 1 with alice enrolled; one exam score for alice by bob. -/
def db0 : DB :=
  ⟨[⟨1, Role.student⟩, ⟨2, Role.professor⟩, ⟨3, Role.admin⟩],
   [⟨1, Gender.male⟩, ⟨2, Gender.female⟩],
   [mkUser 1 "alice" 1, mkUser 2 "bob" 2, mkUser 3 "carol" 2, mkUser 4 "dan" 3],
   [⟨1, "math", none, 2⟩],
   [⟨1, 1⟩],
   [⟨1, "exam", 90, none, none, 1, 2, 1⟩]⟩

/-! ### Helper lemmas on the dependency layer -/

theorem get_current_professor_user_ok (db : DB) (u : User)
    (h : get_role_enum db u.role_id = Except.ok Role.professor) :
    get_current_professor_user db u = Except.ok u := by
  unfold get_current_professor_user
  rw [h]
  simp [Except.instMonad, Except.bind]

theorem get_current_admin_user_ok (db : DB) (u : User)
    (h : get_role_enum db u.role_id = Except.ok Role.admin) :
    get_current_admin_user db u = Except.ok u := by
  unfold get_current_admin_user
  rw [h]
  simp [Except.instMonad, Except.bind]

theorem get_current_admin_user_forbidden (db : DB) (u : User) (r : Role)
    (h : get_role_enum db u.role_id = Except.ok r) (hr : r ≠ Role.admin) :
    get_current_admin_user db u =
      Except.error ⟨403, "Se requieren permisos de administrador", []⟩ := by
  unfold get_current_admin_user
  rw [h]
  simp [Except.instMonad, Except.bind, hr]

/-! ### Claim C10 -/

/-- C10: enroll_student never checks the target user's role: for every
existing user of any role and every existing subject owned by the
calling professor with no existing enrollment link for that pair, the
call succeeds and appends exactly the link (student_id, subject_id);
when a link already exists it fails with HTTP 409 and adds nothing. -/
theorem enroll_student_no_role_check (db : DB) (u : User) (sid stid : Nat)
    (subject : Subject) (target : User)
    (hrole : get_role_enum db u.role_id = Except.ok Role.professor)
    (hsub : db.getSubject sid = some subject)
    (htgt : db.getUser stid = some target)
    (hown : subject.professor_id = u.user_id) :
    (db.links.any (fun l => l.student_id == stid && l.subject_id == sid) = false →
      enroll_student db u sid stid =
        Except.ok ({ db with links := db.links ++ [⟨stid, sid⟩] },
          "Estudiante inscrito exitosamente")) ∧
    (db.links.any (fun l => l.student_id == stid && l.subject_id == sid) = true →
      enroll_student db u sid stid =
        Except.error ⟨409, "El estudiante ya está inscrito en esta materia", []⟩ ∧
      DB.after db (enroll_student db u sid stid) = db) := by
  constructor
  · intro hnolink
    unfold enroll_student
    rw [get_current_professor_user_ok db u hrole]
    simp [Except.instMonad, Except.bind, hsub, htgt, hown, hnolink]
  · intro hlink
    have heq : enroll_student db u sid stid =
        Except.error ⟨409, "El estudiante ya está inscrito en esta materia", []⟩ := by
      unfold enroll_student
      rw [get_current_professor_user_ok db u hrole]
      simp [Except.instMonad, Except.bind, hsub, htgt, hown, hlink]
    exact ⟨heq, by rw [heq]; rfl⟩

/-- Witness for C10: professor bob (user 2) enrolls admin dan (user 4,
role ADMIN) into his subject 1, and re-enrolling student alice (already
linked) yields 409. -/
theorem enroll_student_no_role_check_witness :
    (enroll_student db0 (mkUser 2 "bob" 2) 1 4 =
      Except.ok ({ db0 with links := db0.links ++ [⟨4, 1⟩] },
        "Estudiante inscrito exitosamente")) ∧
    (enroll_student db0 (mkUser 2 "bob" 2) 1 1 =
      Except.error ⟨409, "El estudiante ya está inscrito en esta materia", []⟩) := by
  constructor
  · exact (enroll_student_no_role_check db0 (mkUser 2 "bob" 2) 1 4
      ⟨1, "math", none, 2⟩ (mkUser 4 "dan" 3) rfl rfl rfl rfl).1 rfl
  · exact ((enroll_student_no_role_check db0 (mkUser 2 "bob" 2) 1 1
      ⟨1, "math", none, 2⟩ (mkUser 1 "alice" 1) rfl rfl rfl rfl).2 rfl).1

/-! ### Claim C9 -/

/-- C9: create_score is atomic on failure — every failing path leaves
the database unchanged and returns the specific status of the failed
check (subject missing 404; subject not owned 403; student missing or
not a STUDENT 404; not enrolled 409; duplicate triple 409) — and when
all checks pass it appends exactly one Score whose professor_id is the
caller's user_id, leaving every other table unchanged. -/
theorem create_score_atomic (db : DB) (u : User) (sc : ScoreCreate)
    (hrole : get_role_enum db u.role_id = Except.ok Role.professor) :
    (∀ e, create_score db u sc = Except.error e →
      DB.after db (create_score db u sc) = db) ∧
    (db.getSubject sc.subject_id = none →
      create_score db u sc = Except.error ⟨404, "Materia no encontrada", []⟩) ∧
    (∀ subject, db.getSubject sc.subject_id = some subject →
      subject.professor_id ≠ u.user_id →
      create_score db u sc =
        Except.error ⟨403, "Solo puedes calificar en tus propias materias", []⟩) ∧
    (∀ subject, db.getSubject sc.subject_id = some subject →
      subject.professor_id = u.user_id →
      db.getUser sc.student_id = none →
      create_score db u sc = Except.error ⟨404, "Estudiante no encontrado", []⟩) ∧
    (∀ subject student r, db.getSubject sc.subject_id = some subject →
      subject.professor_id = u.user_id →
      db.getUser sc.student_id = some student →
      get_role_enum db student.role_id = Except.ok r → r ≠ Role.student →
      create_score db u sc = Except.error ⟨404, "Estudiante no encontrado", []⟩) ∧
    (∀ subject student, db.getSubject sc.subject_id = some subject →
      subject.professor_id = u.user_id →
      db.getUser sc.student_id = some student →
      get_role_enum db student.role_id = Except.ok Role.student →
      db.links.any (fun l =>
        l.student_id == sc.student_id && l.subject_id == sc.subject_id) = false →
      create_score db u sc =
        Except.error ⟨409, "El estudiante no está inscrito en esta materia", []⟩) ∧
    (∀ subject student, db.getSubject sc.subject_id = some subject →
      subject.professor_id = u.user_id →
      db.getUser sc.student_id = some student →
      get_role_enum db student.role_id = Except.ok Role.student →
      db.links.any (fun l =>
        l.student_id == sc.student_id && l.subject_id == sc.subject_id) = true →
      db.scores.any (fun t => sameTriple
        ⟨db.nextScoreId, sc.score_type, sc.valor, sc.fecha, sc.comentario,
          sc.subject_id, u.user_id, sc.student_id⟩ t) = true →
      create_score db u sc = Except.error ⟨409,
        "Ya existe una calificación de este tipo para el estudiante en esta materia", []⟩) ∧
    (∀ subject student, db.getSubject sc.subject_id = some subject →
      subject.professor_id = u.user_id →
      db.getUser sc.student_id = some student →
      get_role_enum db student.role_id = Except.ok Role.student →
      db.links.any (fun l =>
        l.student_id == sc.student_id && l.subject_id == sc.subject_id) = true →
      db.scores.any (fun t => sameTriple
        ⟨db.nextScoreId, sc.score_type, sc.valor, sc.fecha, sc.comentario,
          sc.subject_id, u.user_id, sc.student_id⟩ t) = false →
      create_score db u sc = Except.ok
        ({ db with scores := db.scores ++
            [⟨db.nextScoreId, sc.score_type, sc.valor, sc.fecha, sc.comentario,
              sc.subject_id, u.user_id, sc.student_id⟩] },
          ⟨db.nextScoreId, sc.score_type, sc.valor, sc.fecha, sc.comentario,
            sc.subject_id, u.user_id, sc.student_id⟩)) := by
  refine ⟨?_, ?_, ?_, ?_, ?_, ?_, ?_, ?_⟩
  · intro e he
    rw [he]
    rfl
  · intro hsub
    unfold create_score
    rw [get_current_professor_user_ok db u hrole]
    simp [Except.instMonad, Except.bind, hsub]
  · intro subject hsub hown
    unfold create_score
    rw [get_current_professor_user_ok db u hrole]
    simp [Except.instMonad, Except.bind, hsub, hown]
  · intro subject hsub hown hstu
    unfold create_score
    rw [get_current_professor_user_ok db u hrole]
    simp [Except.instMonad, Except.bind, hsub, hown, hstu]
  · intro subject student r hsub hown hstu hr hrne
    unfold create_score
    rw [get_current_professor_user_ok db u hrole]
    simp [Except.instMonad, Except.bind, hsub, hown, hstu, hr, hrne]
  · intro subject student hsub hown hstu hr hlink
    unfold create_score
    rw [get_current_professor_user_ok db u hrole]
    simp [Except.instMonad, Except.bind, hsub, hown, hstu, hr, hlink]
  · intro subject student hsub hown hstu hr hlink hdup
    unfold create_score
    rw [get_current_professor_user_ok db u hrole]
    simp only [List.any_eq_true] at hdup
    simp [Except.instMonad, Except.bind, hsub, hown, hstu, hr, hlink, hdup]
  · intro subject student hsub hown hstu hr hlink hdup
    unfold create_score
    rw [get_current_professor_user_ok db u hrole]
    simp only [List.any_eq_false] at hdup
    simp [Except.instMonad, Except.bind, hsub, hown, hstu, hr, hlink, hdup]
    intro x hx
    exact Bool.eq_false_iff.mpr (hdup x hx)

/-- Witness for C9: professor carol (user 3) does not own subject 1, so
her attempt fails 403; professor bob succeeds with a new score type and
the new row carries professor_id 2. -/
theorem create_score_atomic_witness :
    (create_score db0 (mkUser 3 "carol" 2) ⟨80, "quiz", none, none, 1, 1⟩ =
      Except.error ⟨403, "Solo puedes calificar en tus propias materias", []⟩) ∧
    (create_score db0 (mkUser 2 "bob" 2) ⟨80, "quiz", none, none, 1, 1⟩ =
      Except.ok ({ db0 with scores := db0.scores ++
          [⟨2, "quiz", 80, none, none, 1, 2, 1⟩] },
        ⟨2, "quiz", 80, none, none, 1, 2, 1⟩)) := by
  constructor
  · exact (create_score_atomic db0 (mkUser 3 "carol" 2) ⟨80, "quiz", none, none, 1, 1⟩
      rfl).2.2.1 ⟨1, "math", none, 2⟩ rfl (by decide)
  · exact (create_score_atomic db0 (mkUser 2 "bob" 2) ⟨80, "quiz", none, none, 1, 1⟩
      rfl).2.2.2.2.2.2.2 ⟨1, "math", none, 2⟩ (mkUser 1 "alice" 1) rfl rfl rfl rfl rfl rfl

/-! ### Claim C3 -/

theorem update_score_ok_owner (db : DB) (u : User) (sid : Nat) (upd : ScoreUpdate)
    (hrole : get_role_enum db u.role_id = Except.ok Role.professor)
    (db' : DB) (out : Score)
    (h : update_score db u sid upd = Except.ok (db', out)) :
    ∃ s, db.getScore sid = some s ∧ s.professor_id = u.user_id := by
  unfold update_score at h
  rw [get_current_professor_user_ok db u hrole] at h
  simp only [Except.instMonad, Except.bind] at h
  split at h
  · exact absurd h (by simp)
  · rename_i s hs
    split at h
    · exact absurd h (by simp)
    · rename_i hne
      exact ⟨s, hs, not_ne_iff.mp hne⟩

theorem update_score_not_owner (db : DB) (u : User) (sid : Nat) (upd : ScoreUpdate)
    (s : Score)
    (hrole : get_role_enum db u.role_id = Except.ok Role.professor)
    (hs : db.getScore sid = some s) (hne : s.professor_id ≠ u.user_id) :
    update_score db u sid upd =
      Except.error ⟨403, "No puedes modificar calificaciones de otro profesor", []⟩ := by
  unfold update_score
  rw [get_current_professor_user_ok db u hrole]
  simp [Except.instMonad, Except.bind, hs, hne]

theorem delete_score_ok_owner (db : DB) (u : User) (sid : Nat)
    (hrole : get_role_enum db u.role_id = Except.ok Role.professor)
    (db' : DB) (out : Unit)
    (h : delete_score db u sid = Except.ok (db', out)) :
    ∃ s, db.getScore sid = some s ∧ s.professor_id = u.user_id := by
  unfold delete_score at h
  rw [get_current_professor_user_ok db u hrole] at h
  simp only [Except.instMonad, Except.bind] at h
  split at h
  · exact absurd h (by simp)
  · rename_i s hs
    split at h
    · exact absurd h (by simp)
    · rename_i hne
      exact ⟨s, hs, not_ne_iff.mp hne⟩

theorem delete_score_not_owner (db : DB) (u : User) (sid : Nat) (s : Score)
    (hrole : get_role_enum db u.role_id = Except.ok Role.professor)
    (hs : db.getScore sid = some s) (hne : s.professor_id ≠ u.user_id) :
    delete_score db u sid =
      Except.error ⟨403, "No puedes eliminar calificaciones de otro profesor", []⟩ := by
  unfold delete_score
  rw [get_current_professor_user_ok db u hrole]
  simp [Except.instMonad, Except.bind, hs, hne]

theorem update_subject_ok_owner (db : DB) (u : User) (sid : Nat) (upd : SubjectUpdate)
    (hrole : get_role_enum db u.role_id = Except.ok Role.professor)
    (db' : DB) (out : Subject)
    (h : update_subject db u sid upd = Except.ok (db', out)) :
    ∃ s, db.getSubject sid = some s ∧ s.professor_id = u.user_id := by
  unfold update_subject at h
  rw [get_current_professor_user_ok db u hrole] at h
  simp only [Except.instMonad, Except.bind] at h
  split at h
  · exact absurd h (by simp)
  · rename_i s hs
    split at h
    · exact absurd h (by simp)
    · rename_i hne
      exact ⟨s, hs, not_ne_iff.mp hne⟩

theorem update_subject_not_owner (db : DB) (u : User) (sid : Nat) (upd : SubjectUpdate)
    (s : Subject)
    (hrole : get_role_enum db u.role_id = Except.ok Role.professor)
    (hs : db.getSubject sid = some s) (hne : s.professor_id ≠ u.user_id) :
    update_subject db u sid upd =
      Except.error ⟨403, "Solo puedes modificar tus propias materias", []⟩ := by
  unfold update_subject
  rw [get_current_professor_user_ok db u hrole]
  simp [Except.instMonad, Except.bind, hs, hne]

theorem delete_subject_ok_owner (db : DB) (u : User) (sid : Nat)
    (hrole : get_role_enum db u.role_id = Except.ok Role.professor)
    (db' : DB) (out : Unit)
    (h : delete_subject db u sid = Except.ok (db', out)) :
    ∃ s, db.getSubject sid = some s ∧ s.professor_id = u.user_id := by
  unfold delete_subject at h
  rw [get_current_professor_user_ok db u hrole] at h
  simp only [Except.instMonad, Except.bind] at h
  split at h
  · exact absurd h (by simp)
  · rename_i s hs
    split at h
    · exact absurd h (by simp)
    · rename_i hne
      exact ⟨s, hs, not_ne_iff.mp hne⟩

theorem delete_subject_not_owner (db : DB) (u : User) (sid : Nat) (s : Subject)
    (hrole : get_role_enum db u.role_id = Except.ok Role.professor)
    (hs : db.getSubject sid = some s) (hne : s.professor_id ≠ u.user_id) :
    delete_subject db u sid =
      Except.error ⟨403, "Solo puedes eliminar tus propias materias", []⟩ := by
  unfold delete_subject
  rw [get_current_professor_user_ok db u hrole]
  simp [Except.instMonad, Except.bind, hs, hne]

/-- C3: for every authenticated caller whose role resolves to PROFESSOR,
update_score, delete_score, update_subject and delete_subject succeed
only when the target resource's professor_id equals the caller's
user_id; when it differs they fail with HTTP 403 and the target state is
unchanged. -/
theorem professor_ownership_checks (db : DB) (u : User)
    (hrole : get_role_enum db u.role_id = Except.ok Role.professor) :
    (∀ sid upd db' out, update_score db u sid upd = Except.ok (db', out) →
      ∃ s, db.getScore sid = some s ∧ s.professor_id = u.user_id) ∧
    (∀ sid upd s, db.getScore sid = some s → s.professor_id ≠ u.user_id →
      update_score db u sid upd =
        Except.error ⟨403, "No puedes modificar calificaciones de otro profesor", []⟩ ∧
      DB.after db (update_score db u sid upd) = db) ∧
    (∀ sid db' out, delete_score db u sid = Except.ok (db', out) →
      ∃ s, db.getScore sid = some s ∧ s.professor_id = u.user_id) ∧
    (∀ sid s, db.getScore sid = some s → s.professor_id ≠ u.user_id →
      delete_score db u sid =
        Except.error ⟨403, "No puedes eliminar calificaciones de otro profesor", []⟩ ∧
      DB.after db (delete_score db u sid) = db) ∧
    (∀ sid upd db' out, update_subject db u sid upd = Except.ok (db', out) →
      ∃ s, db.getSubject sid = some s ∧ s.professor_id = u.user_id) ∧
    (∀ sid upd s, db.getSubject sid = some s → s.professor_id ≠ u.user_id →
      update_subject db u sid upd =
        Except.error ⟨403, "Solo puedes modificar tus propias materias", []⟩ ∧
      DB.after db (update_subject db u sid upd) = db) ∧
    (∀ sid db' out, delete_subject db u sid = Except.ok (db', out) →
      ∃ s, db.getSubject sid = some s ∧ s.professor_id = u.user_id) ∧
    (∀ sid s, db.getSubject sid = some s → s.professor_id ≠ u.user_id →
      delete_subject db u sid =
        Except.error ⟨403, "Solo puedes eliminar tus propias materias", []⟩ ∧
      DB.after db (delete_subject db u sid) = db) := by
  refine ⟨?_, ?_, ?_, ?_, ?_, ?_, ?_, ?_⟩
  · intro sid upd db' out h
    exact update_score_ok_owner db u sid upd hrole db' out h
  · intro sid upd s hs hne
    have he := update_score_not_owner db u sid upd s hrole hs hne
    exact ⟨he, by rw [he]; rfl⟩
  · intro sid db' out h
    exact delete_score_ok_owner db u sid hrole db' out h
  · intro sid s hs hne
    have he := delete_score_not_owner db u sid s hrole hs hne
    exact ⟨he, by rw [he]; rfl⟩
  · intro sid upd db' out h
    exact update_subject_ok_owner db u sid upd hrole db' out h
  · intro sid upd s hs hne
    have he := update_subject_not_owner db u sid upd s hrole hs hne
    exact ⟨he, by rw [he]; rfl⟩
  · intro sid db' out h
    exact delete_subject_ok_owner db u sid hrole db' out h
  · intro sid s hs hne
    have he := delete_subject_not_owner db u sid s hrole hs hne
    exact ⟨he, by rw [he]; rfl⟩

/-- Witness for C3: professor carol (user 3) neither owns score 1 nor
subject 1 (both professor bob's), so all four operations return 403. -/
theorem professor_ownership_checks_witness :
    (update_score db0 (mkUser 3 "carol" 2) 1 ⟨70, "exam", none, none⟩ =
      Except.error ⟨403, "No puedes modificar calificaciones de otro profesor", []⟩) ∧
    (delete_score db0 (mkUser 3 "carol" 2) 1 =
      Except.error ⟨403, "No puedes eliminar calificaciones de otro profesor", []⟩) ∧
    (update_subject db0 (mkUser 3 "carol" 2) 1 ⟨"math", none, 3⟩ =
      Except.error ⟨403, "Solo puedes modificar tus propias materias", []⟩) ∧
    (delete_subject db0 (mkUser 3 "carol" 2) 1 =
      Except.error ⟨403, "Solo puedes eliminar tus propias materias", []⟩) := by
  have h := professor_ownership_checks db0 (mkUser 3 "carol" 2) rfl
  refine ⟨?_, ?_, ?_, ?_⟩
  · exact (h.2.1 1 ⟨70, "exam", none, none⟩ ⟨1, "exam", 90, none, none, 1, 2, 1⟩
      rfl (by decide)).1
  · exact (h.2.2.2.1 1 ⟨1, "exam", 90, none, none, 1, 2, 1⟩ rfl (by decide)).1
  · exact (h.2.2.2.2.2.1 1 ⟨"math", none, 3⟩ ⟨1, "math", none, 2⟩ rfl (by decide)).1
  · exact (h.2.2.2.2.2.2.2 1 ⟨1, "math", none, 2⟩ rfl (by decide)).1

/-! ### Claim C4 -/

/-- C4: delete_user and list_users succeed only when the caller's
role_id resolves to the ADMIN role; any other resolved role fails with
the HTTP 403 of get_current_admin_user, and in the delete_user case the
user table is unchanged. -/
theorem admin_only_endpoints (db : DB) (u : User) (r : Role)
    (hrole : get_role_enum db u.role_id = Except.ok r) :
    (r ≠ Role.admin → ∀ uid,
      delete_user db u uid =
        Except.error ⟨403, "Se requieren permisos de administrador", []⟩ ∧
      (DB.after db (delete_user db u uid)).users = db.users) ∧
    (r ≠ Role.admin → ∀ skip limit,
      list_users db u skip limit =
        Except.error ⟨403, "Se requieren permisos de administrador", []⟩) ∧
    (∀ uid db' out, delete_user db u uid = Except.ok (db', out) → r = Role.admin) ∧
    (∀ skip limit out, list_users db u skip limit = Except.ok out → r = Role.admin) := by
  refine ⟨?_, ?_, ?_, ?_⟩
  · intro hne uid
    have he : delete_user db u uid =
        Except.error ⟨403, "Se requieren permisos de administrador", []⟩ := by
      unfold delete_user
      rw [get_current_admin_user_forbidden db u r hrole hne]
      simp [Except.instMonad, Except.bind]
    exact ⟨he, by rw [he]; rfl⟩
  · intro hne skip limit
    unfold list_users
    rw [get_current_admin_user_forbidden db u r hrole hne]
    simp [Except.instMonad, Except.bind]
  · intro uid db' out h
    by_contra hne
    unfold delete_user at h
    rw [get_current_admin_user_forbidden db u r hrole hne] at h
    simp [Except.instMonad, Except.bind] at h
  · intro skip limit out h
    by_contra hne
    unfold list_users at h
    rw [get_current_admin_user_forbidden db u r hrole hne] at h
    simp [Except.instMonad, Except.bind] at h

/-- Witness for C4: professor bob (user 2) is rejected by both
endpoints with 403. -/
theorem admin_only_endpoints_witness :
    (delete_user db0 (mkUser 2 "bob" 2) 1 =
      Except.error ⟨403, "Se requieren permisos de administrador", []⟩) ∧
    (list_users db0 (mkUser 2 "bob" 2) 0 10 =
      Except.error ⟨403, "Se requieren permisos de administrador", []⟩) := by
  have h := admin_only_endpoints db0 (mkUser 2 "bob" 2) Role.professor rfl
  exact ⟨(h.1 (by decide) 1).1, h.2.1 (by decide) 0 10⟩

/-! ### Success-shape lemmas: how each mutating endpoint transforms the
state when it commits -/

theorem create_user_ok_shape (db : DB) (today : DateV) (ctx : CryptContext)
    (cu : Option User) (uc : UserCreate) (db' : DB) (out : User)
    (h : create_user db today ctx cu uc = Except.ok (db', out)) :
    db' = { db with users := db.users ++ [out] } := by
  unfold create_user at h
  split at h
  · exact absurd h (by simp)
  · split at h
    · exact absurd h (by simp)
    · split at h
      · exact absurd h (by simp)
      · rcases hri : get_role_id db uc.role with e | rid <;> rw [hri] at h <;>
          simp only [Except.instMonad, Except.bind] at h
        · exact absurd h (by simp)
        · rcases hgi : get_gender_id db uc.gender with e | gid <;> rw [hgi] at h <;>
            simp only [Except.instMonad, Except.bind] at h
          · exact absurd h (by simp)
          · injection h with h
            injection h with h1 h2
            rw [← h1, ← h2]

theorem update_my_user_ok_shape (db : DB) (today : DateV) (ctx : CryptContext)
    (cu : User) (upd : UserUpdate) (db' : DB) (out : User)
    (h : update_my_user db today ctx cu upd = Except.ok (db', out)) :
    ∃ user', user'.user_id = cu.user_id ∧
      db' = { db with users := db.users.map (fun u => if u.user_id == cu.user_id then user' else u) } := by
  unfold update_my_user at h
  split at h
  · exact absurd h (by simp)
  · rename_i user huser
    have huid : user.user_id = cu.user_id := by
      have := List.find?_some huser
      exact beq_iff_eq.mp this
    rcases hre : get_role_enum db user.role_id with e | r <;> rw [hre] at h <;>
      simp only [Except.instMonad, Except.bind] at h
    · exact absurd h (by simp)
    · split at h
      · exact absurd h (by simp)
      · split at h
        · exact absurd h (by simp)
        · injection h with h
          injection h with h1 h2
          refine ⟨out, ?_, ?_⟩
          · rw [← h2]
            exact huid
          · rw [← h1, ← h2]

theorem delete_user_ok_shape (db : DB) (cu : User) (uid : Nat) (db' : DB)
    (h : delete_user db cu uid = Except.ok (db', ())) :
    (db.subjects.any (fun s => s.professor_id == uid) = false) ∧
    (db.scores.any (fun s => s.professor_id == uid || s.student_id == uid) = false) ∧
    db' = { db with
      users := db.users.filter (fun u => u.user_id != uid),
      links := db.links.filter (fun l => l.student_id != uid) } := by
  unfold delete_user at h
  rcases hadm : get_current_admin_user db cu with e | v <;> rw [hadm] at h <;>
    simp only [Except.instMonad, Except.bind] at h
  · exact absurd h (by simp)
  · split at h
    · exact absurd h (by simp)
    · split at h
      · exact absurd h (by simp)
      · rename_i hrefs
        simp only [Bool.not_eq_true, Bool.or_eq_false_iff] at hrefs
        injection h with h
        injection h with h1 h2
        exact ⟨hrefs.1, hrefs.2, h1.symm⟩

theorem create_subject_never_ok (db : DB) (cu : User) (sc : SubjectCreate)
    (db' : DB) (out : Subject) :
    create_subject db cu sc ≠ Except.ok (db', out) := by
  intro h
  unfold create_subject at h
  rcases hdep : get_current_professor_user db cu with e | v <;> rw [hdep] at h <;>
    simp only [Except.instMonad, Except.bind] at h <;> exact absurd h (by simp)

theorem update_subject_ok_shape (db : DB) (cu : User) (sid : Nat)
    (upd : SubjectUpdate) (db' : DB) (out : Subject)
    (h : update_subject db cu sid upd = Except.ok (db', out)) :
    ∃ s', s'.subject_id = sid ∧
      db' = { db with subjects := db.subjects.map (fun t => if t.subject_id == sid then s' else t) } := by
  unfold update_subject at h
  rcases hdep : get_current_professor_user db cu with e | v <;> rw [hdep] at h <;>
    simp only [Except.instMonad, Except.bind] at h
  · exact absurd h (by simp)
  · split at h
    · exact absurd h (by simp)
    · rename_i subject hsubj
      have hsid : subject.subject_id = sid := by
        have := List.find?_some hsubj
        exact beq_iff_eq.mp this
      split at h
      · exact absurd h (by simp)
      · injection h with h
        injection h with h1 h2
        refine ⟨out, ?_, ?_⟩
        · rw [← h2]
          exact hsid
        · rw [← h1, ← h2]

theorem delete_subject_ok_shape (db : DB) (cu : User) (sid : Nat) (db' : DB)
    (h : delete_subject db cu sid = Except.ok (db', ())) :
    (db.scores.any (fun s => s.subject_id == sid) = false) ∧
    db' = { db with
      subjects := db.subjects.filter (fun t => t.subject_id != sid),
      links := db.links.filter (fun l => l.subject_id != sid) } := by
  unfold delete_subject at h
  rcases hdep : get_current_professor_user db cu with e | v <;> rw [hdep] at h <;>
    simp only [Except.instMonad, Except.bind] at h
  · exact absurd h (by simp)
  · split at h
    · exact absurd h (by simp)
    · split at h
      · exact absurd h (by simp)
      · split at h
        · exact absurd h (by simp)
        · rename_i hrefs
          injection h with h
          injection h with h1 h2
          exact ⟨Bool.eq_false_iff.mpr hrefs, h1.symm⟩

theorem enroll_student_ok_shape (db : DB) (cu : User) (sid stid : Nat)
    (db' : DB) (msg : String)
    (h : enroll_student db cu sid stid = Except.ok (db', msg)) :
    (∃ subject, db.getSubject sid = some subject) ∧
    (∃ target, db.getUser stid = some target) ∧
    db' = { db with links := db.links ++ [⟨stid, sid⟩] } := by
  unfold enroll_student at h
  rcases hdep : get_current_professor_user db cu with e | v <;> rw [hdep] at h <;>
    simp only [Except.instMonad, Except.bind] at h
  · exact absurd h (by simp)
  · split at h
    · exact absurd h (by simp)
    · rename_i subject hsubj
      split at h
      · exact absurd h (by simp)
      · rename_i target htgt
        split at h
        · exact absurd h (by simp)
        · split at h
          · exact absurd h (by simp)
          · injection h with h
            injection h with h1 h2
            exact ⟨⟨subject, hsubj⟩, ⟨target, htgt⟩, h1.symm⟩

theorem unenroll_student_ok_shape (db : DB) (cu : User) (sid stid : Nat)
    (db' : DB) (msg : String)
    (h : unenroll_student db cu sid stid = Except.ok (db', msg)) :
    db' = { db with links := db.links.filter (fun l =>
      !(l.student_id == stid && l.subject_id == sid)) } := by
  unfold unenroll_student at h
  rcases hdep : get_current_professor_user db cu with e | v <;> rw [hdep] at h <;>
    simp only [Except.instMonad, Except.bind] at h
  · exact absurd h (by simp)
  · split at h
    · exact absurd h (by simp)
    · split at h
      · exact absurd h (by simp)
      · split at h
        · exact absurd h (by simp)
        · injection h with h
          injection h with h1 h2
          exact h1.symm

theorem create_score_ok_shape (db : DB) (cu : User) (sc : ScoreCreate)
    (db' : DB) (out : Score)
    (h : create_score db cu sc = Except.ok (db', out)) :
    (∃ subject, db.getSubject sc.subject_id = some subject) ∧
    (∃ student, db.getUser sc.student_id = some student) ∧
    (db.scores.any (fun t => sameTriple out t) = false) ∧
    out = ⟨db.nextScoreId, sc.score_type, sc.valor, sc.fecha, sc.comentario, sc.subject_id, cu.user_id, sc.student_id⟩ ∧
    db' = { db with scores := db.scores ++ [out] } := by
  unfold create_score at h
  rcases hdep : get_current_professor_user db cu with e | v <;> rw [hdep] at h <;>
    simp only [Except.instMonad, Except.bind] at h
  · exact absurd h (by simp)
  · have hvu : v = cu := by
      unfold get_current_professor_user at hdep
      rcases hre : get_role_enum db cu.role_id with e | r <;> rw [hre] at hdep <;>
        simp only [Except.instMonad, Except.bind] at hdep
      · exact absurd hdep (by simp)
      · split at hdep
        · exact absurd hdep (by simp)
        · injection hdep with hdep
          exact hdep.symm
    subst hvu
    split at h
    · exact absurd h (by simp)
    · rename_i subject hsubj
      split at h
      · exact absurd h (by simp)
      · split at h
        · exact absurd h (by simp)
        · rename_i student hstu
          rcases hre : get_role_enum db student.role_id with e | r <;> rw [hre] at h <;>
            simp only [Except.instMonad, Except.bind] at h
          · exact absurd h (by simp)
          · split at h
            · exact absurd h (by simp)
            · split at h
              · exact absurd h (by simp)
              · split at h
                · exact absurd h (by simp)
                · rename_i hdup
                  injection h with h
                  injection h with h1 h2
                  subst h2
                  exact ⟨⟨subject, hsubj⟩, ⟨student, hstu⟩,
                    Bool.eq_false_iff.mpr hdup, rfl, h1.symm⟩

theorem update_score_ok_shape (db : DB) (cu : User) (sid : Nat)
    (upd : ScoreUpdate) (db' : DB) (out : Score)
    (h : update_score db cu sid upd = Except.ok (db', out)) :
    ∃ score, db.getScore sid = some score ∧
      out.score_id = score.score_id ∧
      out.subject_id = score.subject_id ∧
      out.professor_id = score.professor_id ∧
      out.student_id = score.student_id ∧
      score.score_id = sid ∧
      (db.scores.any (fun t => t.score_id != score.score_id && sameTriple out t) = false) ∧
      db' = { db with scores := db.scores.map (fun t => if t.score_id == sid then out else t) } := by
  unfold update_score at h
  rcases hdep : get_current_professor_user db cu with e | v <;> rw [hdep] at h <;>
    simp only [Except.instMonad, Except.bind] at h
  · exact absurd h (by simp)
  · split at h
    · exact absurd h (by simp)
    · rename_i score hscore
      have hsid : score.score_id = sid := by
        have := List.find?_some hscore
        exact beq_iff_eq.mp this
      split at h
      · exact absurd h (by simp)
      · split at h
        · exact absurd h (by simp)
        · rename_i hnodup
          injection h with h
          injection h with h1 h2
          subst h2
          exact ⟨score, hscore, rfl, rfl, rfl, rfl, hsid,
            Bool.eq_false_iff.mpr hnodup, h1.symm⟩

theorem delete_score_ok_shape (db : DB) (cu : User) (sid : Nat) (db' : DB)
    (h : delete_score db cu sid = Except.ok (db', ())) :
    db' = { db with scores := db.scores.filter (fun t => t.score_id != sid) } := by
  unfold delete_score at h
  rcases hdep : get_current_professor_user db cu with e | v <;> rw [hdep] at h <;>
    simp only [Except.instMonad, Except.bind] at h
  · exact absurd h (by simp)
  · split at h
    · exact absurd h (by simp)
    · split at h
      · exact absurd h (by simp)
      · injection h with h
        injection h with h1 h2
        exact h1.symm

/-! ### Propositional characterizations of the invariants -/

theorem existsUser_iff (db : DB) (x : Nat) :
    db.existsUser x = true ↔ ∃ u ∈ db.users, u.user_id = x := by
  simp [DB.existsUser, List.any_eq_true]

theorem existsSubject_iff (db : DB) (x : Nat) :
    db.existsSubject x = true ↔ ∃ s ∈ db.subjects, s.subject_id = x := by
  simp [DB.existsSubject, List.any_eq_true]

theorem refIntegrity_iff (db : DB) :
    RefIntegrity db = true ↔
      ((∀ s ∈ db.scores, db.existsSubject s.subject_id = true ∧
          db.existsUser s.professor_id = true ∧ db.existsUser s.student_id = true) ∧
       (∀ l ∈ db.links, db.existsUser l.student_id = true ∧
          db.existsSubject l.subject_id = true)) := by
  simp only [RefIntegrity, List.all_eq_true, Bool.and_eq_true, and_assoc]

theorem sameTriple_true_iff (s t : Score) :
    sameTriple s t = true ↔
      (s.student_id = t.student_id ∧ s.subject_id = t.subject_id ∧
        s.score_type = t.score_type) := by
  simp [sameTriple, Bool.and_eq_true, and_assoc]

theorem sameTriple_false_symm (s t : Score) (h : sameTriple s t = false) :
    sameTriple t s = false := by
  rw [Bool.eq_false_iff] at h ⊢
  intro hts
  apply h
  rw [sameTriple_true_iff] at hts ⊢
  exact ⟨hts.1.symm, hts.2.1.symm, hts.2.2.symm⟩

theorem scoresUnique_iff (l : List Score) :
    scoresUnique l = true ↔ l.Pairwise (fun s t => sameTriple s t = false) := by
  induction l with
  | nil => simp [scoresUnique]
  | cons a l ih =>
      simp [scoresUnique, List.pairwise_cons, ih, List.all_eq_true]

/-- Pairwise distinctness of the score primary keys (score_id is the
autoincrement primary key of the score table). -/
def scoreIdsNodup : List Score → Bool
  | [] => true
  | s :: rest => rest.all (fun t => s.score_id != t.score_id) && scoreIdsNodup rest

theorem scoreIdsNodup_iff (l : List Score) :
    scoreIdsNodup l = true ↔ l.Pairwise (fun s t => s.score_id ≠ t.score_id) := by
  induction l with
  | nil => simp [scoreIdsNodup]
  | cons a l ih =>
      simp [scoreIdsNodup, List.pairwise_cons, ih, List.all_eq_true]

theorem le_foldr_max (l : List Nat) (x : Nat) (hx : x ∈ l) : x ≤ l.foldr max 0 := by
  induction l with
  | nil => cases hx
  | cons a l ih =>
      rcases List.mem_cons.mp hx with h | h
      · subst h
        exact le_max_left _ _
      · exact le_trans (ih h) (le_max_right _ _)

theorem nextScoreId_fresh (db : DB) : ∀ s ∈ db.scores, s.score_id ≠ db.nextScoreId := by
  intro s hs
  have hle : s.score_id ≤ (db.scores.map (fun t => t.score_id)).foldr max 0 :=
    le_foldr_max _ _ (List.mem_map_of_mem _ hs)
  unfold DB.nextScoreId
  omega

theorem getUser_exists (db : DB) (x : Nat) (u : User) (h : db.getUser x = some u) :
    db.existsUser x = true := by
  unfold DB.getUser at h
  rw [existsUser_iff]
  have hp := List.find?_some h
  exact ⟨u, List.mem_of_find?_eq_some h, beq_iff_eq.mp hp⟩

theorem getSubject_exists (db : DB) (x : Nat) (s : Subject) (h : db.getSubject x = some s) :
    db.existsSubject x = true := by
  unfold DB.getSubject at h
  rw [existsSubject_iff]
  have hp := List.find?_some h
  exact ⟨s, List.mem_of_find?_eq_some h, beq_iff_eq.mp hp⟩

/-! ### Preservation of referential integrity, case by case -/

theorem refIntegrity_delete_user (db : DB) (uid : Nat)
    (hinv : RefIntegrity db = true)
    (hsubs : db.subjects.any (fun s => s.professor_id == uid) = false)
    (hscs : db.scores.any (fun s => s.professor_id == uid || s.student_id == uid) = false) :
    RefIntegrity { db with
      users := db.users.filter (fun u => u.user_id != uid),
      links := db.links.filter (fun l => l.student_id != uid) } = true := by
  obtain ⟨hsc, hlk⟩ := (refIntegrity_iff db).mp hinv
  rw [List.any_eq_false] at hscs
  rw [refIntegrity_iff]
  constructor
  · intro s hs
    have hs' : s ∈ db.scores := hs
    obtain ⟨h1, h2, h3⟩ := hsc s hs'
    have hrefs := hscs s hs'
    rw [Bool.or_eq_true, not_or] at hrefs
    refine ⟨h1, ?_, ?_⟩
    · rw [existsUser_iff] at h2 ⊢
      obtain ⟨u, hu, hid⟩ := h2
      refine ⟨u, List.mem_filter.mpr ⟨hu, ?_⟩, hid⟩
      rw [bne_iff_ne, hid]
      exact fun hx => hrefs.1 (by rw [beq_iff_eq]; exact hx)
    · rw [existsUser_iff] at h3 ⊢
      obtain ⟨u, hu, hid⟩ := h3
      refine ⟨u, List.mem_filter.mpr ⟨hu, ?_⟩, hid⟩
      rw [bne_iff_ne, hid]
      exact fun hx => hrefs.2 (by rw [beq_iff_eq]; exact hx)
  · intro l hl
    obtain ⟨hl', hcond⟩ := List.mem_filter.mp hl
    obtain ⟨h1, h2⟩ := hlk l hl'
    have hne : l.student_id ≠ uid := bne_iff_ne.mp hcond
    refine ⟨?_, h2⟩
    rw [existsUser_iff] at h1 ⊢
    obtain ⟨u, hu, hid⟩ := h1
    refine ⟨u, List.mem_filter.mpr ⟨hu, ?_⟩, hid⟩
    rw [bne_iff_ne, hid]
    exact hne

theorem refIntegrity_users_append (db : DB) (l : List User)
    (hinv : RefIntegrity db = true) :
    RefIntegrity { db with users := db.users ++ l } = true := by
  obtain ⟨hsc, hlk⟩ := (refIntegrity_iff db).mp hinv
  rw [refIntegrity_iff]
  constructor
  · intro s hs
    obtain ⟨h1, h2, h3⟩ := hsc s hs
    refine ⟨h1, ?_, ?_⟩
    · rw [existsUser_iff] at h2 ⊢
      obtain ⟨u, hu, hid⟩ := h2
      exact ⟨u, List.mem_append_left _ hu, hid⟩
    · rw [existsUser_iff] at h3 ⊢
      obtain ⟨u, hu, hid⟩ := h3
      exact ⟨u, List.mem_append_left _ hu, hid⟩
  · intro l' hl
    obtain ⟨h1, h2⟩ := hlk l' hl
    refine ⟨?_, h2⟩
    rw [existsUser_iff] at h1 ⊢
    obtain ⟨u, hu, hid⟩ := h1
    exact ⟨u, List.mem_append_left _ hu, hid⟩

theorem users_replace_keeps_ids (users : List User) (cuid : Nat) (user' : User)
    (hid : user'.user_id = cuid) (x : Nat)
    (h : ∃ u ∈ users, u.user_id = x) :
    ∃ u ∈ users.map (fun u => if u.user_id == cuid then user' else u), u.user_id = x := by
  obtain ⟨u, hu, hux⟩ := h
  by_cases hc : u.user_id == cuid
  · refine ⟨user', List.mem_map.mpr ⟨u, hu, by simp [hc]⟩, ?_⟩
    rw [hid, ← beq_iff_eq.mp hc, hux]
  · exact ⟨u, List.mem_map.mpr ⟨u, hu, by simp [hc]⟩, hux⟩

theorem refIntegrity_users_replace (db : DB) (cuid : Nat) (user' : User)
    (hid : user'.user_id = cuid)
    (hinv : RefIntegrity db = true) :
    RefIntegrity { db with users := db.users.map (fun u => if u.user_id == cuid then user' else u) } = true := by
  obtain ⟨hsc, hlk⟩ := (refIntegrity_iff db).mp hinv
  rw [refIntegrity_iff]
  constructor
  · intro s hs
    obtain ⟨h1, h2, h3⟩ := hsc s hs
    refine ⟨h1, ?_, ?_⟩
    · rw [existsUser_iff] at h2 ⊢
      exact users_replace_keeps_ids db.users cuid user' hid _ h2
    · rw [existsUser_iff] at h3 ⊢
      exact users_replace_keeps_ids db.users cuid user' hid _ h3
  · intro l' hl
    obtain ⟨h1, h2⟩ := hlk l' hl
    refine ⟨?_, h2⟩
    rw [existsUser_iff] at h1 ⊢
    exact users_replace_keeps_ids db.users cuid user' hid _ h1

theorem subjects_replace_keeps_ids (subjects : List Subject) (sid : Nat) (s' : Subject)
    (hid : s'.subject_id = sid) (x : Nat)
    (h : ∃ s ∈ subjects, s.subject_id = x) :
    ∃ s ∈ subjects.map (fun t => if t.subject_id == sid then s' else t), s.subject_id = x := by
  obtain ⟨t, ht, htx⟩ := h
  by_cases hc : t.subject_id == sid
  · refine ⟨s', List.mem_map.mpr ⟨t, ht, by simp [hc]⟩, ?_⟩
    rw [hid, ← beq_iff_eq.mp hc, htx]
  · exact ⟨t, List.mem_map.mpr ⟨t, ht, by simp [hc]⟩, htx⟩

theorem refIntegrity_subjects_replace (db : DB) (sid : Nat) (s' : Subject)
    (hid : s'.subject_id = sid)
    (hinv : RefIntegrity db = true) :
    RefIntegrity { db with subjects := db.subjects.map (fun t => if t.subject_id == sid then s' else t) } = true := by
  obtain ⟨hsc, hlk⟩ := (refIntegrity_iff db).mp hinv
  rw [refIntegrity_iff]
  constructor
  · intro s hs
    obtain ⟨h1, h2, h3⟩ := hsc s hs
    refine ⟨?_, h2, h3⟩
    rw [existsSubject_iff] at h1 ⊢
    exact subjects_replace_keeps_ids db.subjects sid s' hid _ h1
  · intro l' hl
    obtain ⟨h1, h2⟩ := hlk l' hl
    refine ⟨h1, ?_⟩
    rw [existsSubject_iff] at h2 ⊢
    exact subjects_replace_keeps_ids db.subjects sid s' hid _ h2

theorem refIntegrity_delete_subject (db : DB) (sid : Nat)
    (hinv : RefIntegrity db = true)
    (hscs : db.scores.any (fun s => s.subject_id == sid) = false) :
    RefIntegrity { db with
      subjects := db.subjects.filter (fun t => t.subject_id != sid),
      links := db.links.filter (fun l => l.subject_id != sid) } = true := by
  obtain ⟨hsc, hlk⟩ := (refIntegrity_iff db).mp hinv
  rw [List.any_eq_false] at hscs
  rw [refIntegrity_iff]
  constructor
  · intro s hs
    have hs' : s ∈ db.scores := hs
    obtain ⟨h1, h2, h3⟩ := hsc s hs'
    have hne : s.subject_id ≠ sid := fun hx => hscs s hs' (by rw [beq_iff_eq]; exact hx)
    refine ⟨?_, h2, h3⟩
    rw [existsSubject_iff] at h1 ⊢
    obtain ⟨t, ht, htx⟩ := h1
    refine ⟨t, List.mem_filter.mpr ⟨ht, ?_⟩, htx⟩
    rw [bne_iff_ne, htx]
    exact hne
  · intro l hl
    obtain ⟨hl', hcond⟩ := List.mem_filter.mp hl
    obtain ⟨h1, h2⟩ := hlk l hl'
    have hne : l.subject_id ≠ sid := bne_iff_ne.mp hcond
    refine ⟨h1, ?_⟩
    rw [existsSubject_iff] at h2 ⊢
    obtain ⟨t, ht, htx⟩ := h2
    refine ⟨t, List.mem_filter.mpr ⟨ht, ?_⟩, htx⟩
    rw [bne_iff_ne, htx]
    exact hne

theorem refIntegrity_set_links (db : DB) (links' : List StudentSubjectLink)
    (hinv : RefIntegrity db = true)
    (h : ∀ l ∈ links', db.existsUser l.student_id = true ∧
      db.existsSubject l.subject_id = true) :
    RefIntegrity { db with links := links' } = true := by
  obtain ⟨hsc, _⟩ := (refIntegrity_iff db).mp hinv
  rw [refIntegrity_iff]
  exact ⟨fun s hs => hsc s hs, fun l hl => h l hl⟩

theorem refIntegrity_set_scores (db : DB) (scores' : List Score)
    (hinv : RefIntegrity db = true)
    (h : ∀ s ∈ scores', db.existsSubject s.subject_id = true ∧
      db.existsUser s.professor_id = true ∧ db.existsUser s.student_id = true) :
    RefIntegrity { db with scores := scores' } = true := by
  obtain ⟨_, hlk⟩ := (refIntegrity_iff db).mp hinv
  rw [refIntegrity_iff]
  exact ⟨fun s hs => h s hs, fun l hl => hlk l hl⟩

theorem getScore_mem (db : DB) (x : Nat) (s : Score) (h : db.getScore x = some s) :
    s ∈ db.scores := by
  unfold DB.getScore at h
  exact List.mem_of_find?_eq_some h

theorem step_preserves_refIntegrity (db db' : DB)
    (hinv : RefIntegrity db = true) (hstep : Step db db') :
    RefIntegrity db' = true := by
  cases hstep with
  | create_user_step today ctx cu uc db2 out h =>
      obtain rfl := create_user_ok_shape db today ctx cu uc db' out h
      exact refIntegrity_users_append db [out] hinv
  | update_my_user_step today ctx u upd db2 out humem h =>
      obtain ⟨user', hid, rfl⟩ := update_my_user_ok_shape db today ctx u upd db' out h
      exact refIntegrity_users_replace db u.user_id user' hid hinv
  | delete_user_step u uid db2 humem h =>
      obtain ⟨h1, h2, rfl⟩ := delete_user_ok_shape db u uid db' h
      exact refIntegrity_delete_user db uid hinv h1 h2
  | create_subject_step u sc db2 out humem h =>
      exact absurd h (create_subject_never_ok db u sc _ out)
  | update_subject_step u sid upd db2 out humem h =>
      obtain ⟨s', hid, rfl⟩ := update_subject_ok_shape db u sid upd db' out h
      exact refIntegrity_subjects_replace db sid s' hid hinv
  | delete_subject_step u sid db2 humem h =>
      obtain ⟨h1, rfl⟩ := delete_subject_ok_shape db u sid db' h
      exact refIntegrity_delete_subject db sid hinv h1
  | enroll_student_step u sid stid db2 msg humem h =>
      obtain ⟨⟨subject, hsubj⟩, ⟨target, htgt⟩, rfl⟩ :=
        enroll_student_ok_shape db u sid stid db' msg h
      refine refIntegrity_set_links db _ hinv ?_
      intro l hl
      rcases List.mem_append.mp hl with hl' | hl'
      · exact ((refIntegrity_iff db).mp hinv).2 l hl'
      · have hleq : l = ⟨stid, sid⟩ := by simpa using hl'
        subst hleq
        exact ⟨getUser_exists db stid target htgt, getSubject_exists db sid subject hsubj⟩
  | unenroll_student_step u sid stid db2 msg humem h =>
      obtain rfl := unenroll_student_ok_shape db u sid stid db' msg h
      refine refIntegrity_set_links db _ hinv ?_
      intro l hl
      exact ((refIntegrity_iff db).mp hinv).2 l (List.mem_filter.mp hl).1
  | create_score_step u sc db2 out humem h =>
      obtain ⟨⟨subject, hsubj⟩, ⟨student, hstu⟩, hdup, hout, rfl⟩ :=
        create_score_ok_shape db u sc db' out h
      refine refIntegrity_set_scores db _ hinv ?_
      intro s hs
      rcases List.mem_append.mp hs with hs' | hs'
      · exact ((refIntegrity_iff db).mp hinv).1 s hs'
      · have hseq : s = out := by simpa using hs'
        subst hseq
        rw [hout]
        exact ⟨getSubject_exists db sc.subject_id subject hsubj,
          (existsUser_iff db u.user_id).mpr ⟨u, humem, rfl⟩,
          getUser_exists db sc.student_id student hstu⟩
  | update_score_step u sid upd db2 out humem h =>
      obtain ⟨score, hscore, hid1, hid2, hid3, hid4, hsid, hnocol, rfl⟩ :=
        update_score_ok_shape db u sid upd db' out h
      refine refIntegrity_set_scores db _ hinv ?_
      intro s hs
      obtain ⟨t, ht, hteq⟩ := List.mem_map.mp hs
      by_cases hc : t.score_id == sid
      · have hseq : s = out := by rw [← hteq]; simp [hc]
        subst hseq
        obtain ⟨g1, g2, g3⟩ :=
          ((refIntegrity_iff db).mp hinv).1 score (getScore_mem db sid score hscore)
        rw [hid2, hid3, hid4]
        exact ⟨g1, g2, g3⟩
      · have hseq : s = t := by rw [← hteq]; simp [hc]
        subst hseq
        exact ((refIntegrity_iff db).mp hinv).1 s ht
  | delete_score_step u sid db2 humem h =>
      obtain rfl := delete_score_ok_shape db u sid db' h
      refine refIntegrity_set_scores db _ hinv ?_
      intro s hs
      exact ((refIntegrity_iff db).mp hinv).1 s (List.mem_filter.mp hs).1

/-- Well-formedness of the score table: primary keys are distinct and
the uq_score_unique triples are distinct. -/
def ScoreTableInv (db : DB) : Bool :=
  scoreIdsNodup db.scores && scoresUnique db.scores

theorem step_preserves_scoreTableInv (db db' : DB)
    (hinv : ScoreTableInv db = true) (hstep : Step db db') :
    ScoreTableInv db' = true := by
  rw [ScoreTableInv, Bool.and_eq_true, scoreIdsNodup_iff, scoresUnique_iff] at hinv ⊢
  obtain ⟨hids, huniq⟩ := hinv
  cases hstep with
  | create_user_step today ctx cu uc db2 out h =>
      obtain rfl := create_user_ok_shape db today ctx cu uc db' out h
      exact ⟨hids, huniq⟩
  | update_my_user_step today ctx u upd db2 out humem h =>
      obtain ⟨user', hid, rfl⟩ := update_my_user_ok_shape db today ctx u upd db' out h
      exact ⟨hids, huniq⟩
  | delete_user_step u uid db2 humem h =>
      obtain ⟨h1, h2, rfl⟩ := delete_user_ok_shape db u uid db' h
      exact ⟨hids, huniq⟩
  | create_subject_step u sc db2 out humem h =>
      exact absurd h (create_subject_never_ok db u sc _ out)
  | update_subject_step u sid upd db2 out humem h =>
      obtain ⟨s', hid, rfl⟩ := update_subject_ok_shape db u sid upd db' out h
      exact ⟨hids, huniq⟩
  | delete_subject_step u sid db2 humem h =>
      obtain ⟨h1, rfl⟩ := delete_subject_ok_shape db u sid db' h
      exact ⟨hids, huniq⟩
  | enroll_student_step u sid stid db2 msg humem h =>
      obtain ⟨hs1, hs2, rfl⟩ := enroll_student_ok_shape db u sid stid db' msg h
      exact ⟨hids, huniq⟩
  | unenroll_student_step u sid stid db2 msg humem h =>
      obtain rfl := unenroll_student_ok_shape db u sid stid db' msg h
      exact ⟨hids, huniq⟩
  | create_score_step u sc db2 out humem h =>
      obtain ⟨hs1, hs2, hdup, hout, rfl⟩ := create_score_ok_shape db u sc db' out h
      rw [List.any_eq_false] at hdup
      constructor
      · rw [List.pairwise_append]
        refine ⟨hids, List.pairwise_singleton _ _, ?_⟩
        intro a ha b hb
        have hb' : b = out := by simpa using hb
        subst hb'
        rw [hout]
        exact nextScoreId_fresh db a ha
      · rw [List.pairwise_append]
        refine ⟨huniq, List.pairwise_singleton _ _, ?_⟩
        intro a ha b hb
        have hb' : b = out := by simpa using hb
        subst hb'
        exact sameTriple_false_symm b a (Bool.eq_false_iff.mpr (hdup a ha))
  | update_score_step u sid upd db2 out humem h =>
      obtain ⟨score, hscore, hid1, hid2, hid3, hid4, hsid, hnocol, rfl⟩ :=
        update_score_ok_shape db u sid upd db' out h
      rw [List.any_eq_false] at hnocol
      have hfid : ∀ t : Score,
          (if t.score_id == sid then out else t).score_id = t.score_id := by
        intro t
        by_cases hc : t.score_id == sid
        · simp only [hc, if_true, hid1, hsid]
          exact (beq_iff_eq.mp hc).symm
        · simp [hc]
      constructor
      · rw [List.pairwise_map]
        refine List.Pairwise.imp_of_mem ?_ hids
        intro a b ha hb hne
        rw [hfid a, hfid b]
        exact hne
      · rw [List.pairwise_map]
        refine List.Pairwise.imp_of_mem ?_ (hids.and huniq)
        intro a b ha hb hab
        obtain ⟨hne, htri⟩ := hab
        by_cases hca : a.score_id == sid <;> by_cases hcb : b.score_id == sid
        · exact absurd (beq_iff_eq.mp hca ▸ (beq_iff_eq.mp hcb).symm) hne
        · simp only [hca, if_true, hcb, if_false]
          have hb10 := hnocol b hb
          rw [Bool.and_eq_true, not_and] at hb10
          have hbne : (b.score_id != score.score_id) = true := by
            rw [bne_iff_ne, hsid]
            exact fun hx => hcb (by rw [beq_iff_eq]; exact hx)
          exact Bool.eq_false_iff.mpr (hb10 hbne)
        · simp only [hca, if_false, hcb, if_true]
          have ha10 := hnocol a ha
          rw [Bool.and_eq_true, not_and] at ha10
          have hane : (a.score_id != score.score_id) = true := by
            rw [bne_iff_ne, hsid]
            exact fun hx => hca (by rw [beq_iff_eq]; exact hx)
          exact sameTriple_false_symm out a (Bool.eq_false_iff.mpr (ha10 hane))
        · rw [if_neg hca, if_neg hcb]
          exact htri
  | delete_score_step u sid db2 humem h =>
      obtain rfl := delete_score_ok_shape db u sid db' h
      exact ⟨hids.filter _, huniq.filter _⟩

theorem reachable_inv (db : DB) (h : Reachable db) :
    RefIntegrity db = true ∧ ScoreTableInv db = true := by
  induction h with
  | init => exact ⟨rfl, rfl⟩
  | step db1 db2 hreach hstep ih =>
      exact ⟨step_preserves_refIntegrity db1 db2 ih.1 hstep,
        step_preserves_scoreTableInv db1 db2 ih.2 hstep⟩

/-! ### Claim C7 -/

/-- C7: referential integrity — every Score referencing an existing
Subject and existing Users and every StudentSubjectLink referencing an
existing User and Subject — holds of the initial state, is preserved by
every successful API call (deleting a still-referenced user or subject
fails at commit, since the ORM's FK nullification violates the NOT NULL
columns), and therefore holds in every reachable state. -/
theorem referential_integrity (db db' : DB) :
    RefIntegrity initDB = true ∧
    (RefIntegrity db = true → Step db db' → RefIntegrity db' = true) ∧
    (Reachable db → RefIntegrity db = true) := by
  refine ⟨rfl, ?_, ?_⟩
  · exact fun h1 h2 => step_preserves_refIntegrity db db' h1 h2
  · exact fun h => (reachable_inv db h).1

/-- Witness for C7: the seeded initial state, and the state db0, satisfy
the invariant; the Reachable hypothesis is discharged at initDB. -/
theorem referential_integrity_witness :
    RefIntegrity initDB = true ∧ RefIntegrity db0 = true := by
  constructor
  · exact (referential_integrity initDB initDB).2.2 Reachable.init
  · rfl

/-! ### Claim C1 -/

/-- Existence of a score row with the given
(student_id, subject_id, score_type) triple. -/
def dupTriple (db : DB) (student_id subject_id : Nat) (score_type : String) : Bool :=
  db.scores.any (fun t => t.student_id == student_id && t.subject_id == subject_id &&
    t.score_type == score_type)

theorem dupTriple_any_sameTriple (db : DB) (sc : ScoreCreate) (k pid : Nat) :
    dupTriple db sc.student_id sc.subject_id sc.score_type = true ↔
    db.scores.any (fun t => sameTriple
      ⟨k, sc.score_type, sc.valor, sc.fecha, sc.comentario, sc.subject_id, pid, sc.student_id⟩
      t) = true := by
  rw [dupTriple, List.any_eq_true, List.any_eq_true]
  constructor <;> rintro ⟨t, ht, hh⟩ <;> refine ⟨t, ht, ?_⟩ <;>
    simp only [sameTriple, Bool.and_eq_true, beq_iff_eq] at hh ⊢ <;>
    exact ⟨⟨hh.1.1.symm, hh.1.2.symm⟩, hh.2.symm⟩

theorem create_score_dup_not_ok (db : DB) (u : User) (sc : ScoreCreate)
    (hdup : dupTriple db sc.student_id sc.subject_id sc.score_type = true) :
    ∀ db' out, create_score db u sc ≠ Except.ok (db', out) := by
  intro db' out h
  obtain ⟨_, _, hnodup, hout, _⟩ := create_score_ok_shape db u sc db' out h
  rw [List.any_eq_false] at hnodup
  rw [dupTriple, List.any_eq_true] at hdup
  obtain ⟨t, ht, htri⟩ := hdup
  apply hnodup t ht
  rw [hout, sameTriple_true_iff]
  simp only [Bool.and_eq_true, beq_iff_eq] at htri
  exact ⟨htri.1.1.symm, htri.1.2.symm, htri.2.symm⟩

/-- Counterexample to C1 as stated: the claim promises HTTP 409 for
*every* request whose triple matches an existing Score, but the
ownership check precedes the duplicate check — professor carol's request
duplicating the (1, 1, "exam") score on bob's subject is rejected with
403, not 409. -/
theorem score_conflict_status_counterexample :
    dupTriple db0 1 1 "exam" = true ∧
    create_score db0 (mkUser 3 "carol" 2) ⟨50, "exam", none, none, 1, 1⟩ =
      Except.error ⟨403, "Solo puedes calificar en tus propias materias", []⟩ :=
  ⟨rfl, rfl⟩

/-- C1 amended: a request duplicating an existing
(student_id, subject_id, score_type) triple never succeeds — with HTTP
409 precisely when the earlier subject/ownership/student/enrollment
checks pass — and triple-uniqueness of the score table holds in every
reachable state and is preserved by every successful call, update_score
included (its commit is checked against uq_score_unique). -/
theorem score_triple_uniqueness (db : DB) (u : User) (sc : ScoreCreate)
    (hrole : get_role_enum db u.role_id = Except.ok Role.professor) :
    (Reachable db → scoresUnique db.scores = true) ∧
    (dupTriple db sc.student_id sc.subject_id sc.score_type = true →
      ∀ db' out, create_score db u sc ≠ Except.ok (db', out)) ∧
    (∀ subject student,
      db.getSubject sc.subject_id = some subject →
      subject.professor_id = u.user_id →
      db.getUser sc.student_id = some student →
      get_role_enum db student.role_id = Except.ok Role.student →
      db.links.any (fun l =>
        l.student_id == sc.student_id && l.subject_id == sc.subject_id) = true →
      dupTriple db sc.student_id sc.subject_id sc.score_type = true →
      create_score db u sc = Except.error ⟨409,
        "Ya existe una calificación de este tipo para el estudiante en esta materia", []⟩) ∧
    (∀ db'', ScoreTableInv db = true → Step db db'' →
      scoresUnique db''.scores = true) := by
  refine ⟨?_, ?_, ?_, ?_⟩
  · intro h
    have hsi := (reachable_inv db h).2
    rw [ScoreTableInv, Bool.and_eq_true] at hsi
    exact hsi.2
  · exact create_score_dup_not_ok db u sc
  · intro subject student hsub hown hstu hsr hlink hdup
    have hdup' := (dupTriple_any_sameTriple db sc db.nextScoreId u.user_id).mp hdup
    unfold create_score
    rw [get_current_professor_user_ok db u hrole]
    simp only [List.any_eq_true] at hdup'
    simp [Except.instMonad, Except.bind, hsub, hown, hstu, hsr, hlink, hdup']
  · intro db'' hinv hstep
    have hsi := step_preserves_scoreTableInv db db'' hinv hstep
    rw [ScoreTableInv, Bool.and_eq_true] at hsi
    exact hsi.2

/-- Witness for C1: bob's duplicate of the (1, 1, "exam") triple on his
own subject draws exactly 409, and the reachable-state conjunct is
discharged at the initial state. -/
theorem score_triple_uniqueness_witness :
    (create_score db0 (mkUser 2 "bob" 2) ⟨50, "exam", none, none, 1, 1⟩ =
      Except.error ⟨409,
        "Ya existe una calificación de este tipo para el estudiante en esta materia", []⟩) ∧
    scoresUnique initDB.scores = true := by
  constructor
  · exact (score_triple_uniqueness db0 (mkUser 2 "bob" 2) ⟨50, "exam", none, none, 1, 1⟩
      rfl).2.2.1 ⟨1, "math", none, 2⟩ (mkUser 1 "alice" 1) rfl rfl rfl rfl rfl rfl
  · exact (score_triple_uniqueness initDB (mkUser 2 "bob" 2) ⟨50, "exam", none, none, 1, 1⟩
      rfl).1 Reachable.init

/-! ### Claim C2 -/

/-- State for the C2 counterexample: the only score sits in subject 1
(so its subject_id equals student alice's user_id 1) but belongs to
student eve (user 5). -/
def db1 : DB :=
  ⟨[⟨1, Role.student⟩, ⟨2, Role.professor⟩, ⟨3, Role.admin⟩],
   [⟨1, Gender.male⟩, ⟨2, Gender.female⟩],
   [mkUser 1 "alice" 1, mkUser 2 "bob" 2, mkUser 5 "eve" 1],
   [⟨1, "math", none, 2⟩],
   [⟨5, 1⟩],
   [⟨1, "exam", 90, none, none, 1, 2, 5⟩]⟩

/-- Counterexample to C2 as stated: student alice requests score 1 whose
subject_id equals her user_id, so the claimed predicate
"role == STUDENT and resource.subject_id == current_user.id" grants
access — but the code denies with 403, because it compares the score's
student_id, not its subject_id. -/
theorem student_access_counterexample :
    get_role_enum db1 (mkUser 1 "alice" 1).role_id = Except.ok Role.student ∧
    db1.getScore 1 = some ⟨1, "exam", 90, none, none, 1, 2, 5⟩ ∧
    (⟨1, "exam", 90, none, none, 1, 2, 5⟩ : Score).subject_id = (mkUser 1 "alice" 1).user_id ∧
    get_score db1 (mkUser 1 "alice" 1) 1 =
      Except.error ⟨403, "No tienes permiso para ver esta calificación", []⟩ :=
  ⟨rfl, rfl, rfl, rfl⟩

/-- C2 amended: for a STUDENT caller the read endpoints gate on the
*student* id, not the subject id: get_score grants access exactly when
score.student_id equals the caller's user_id, and scores_por_estudiante
exactly when the requested student_id is the caller's own id; every
denied case is HTTP 403. -/
theorem student_read_access (db : DB) (u : User)
    (hrole : get_role_enum db u.role_id = Except.ok Role.student) :
    (∀ sid s, db.getScore sid = some s →
      (s.student_id = u.user_id → get_score db u sid = Except.ok s) ∧
      (s.student_id ≠ u.user_id → get_score db u sid =
        Except.error ⟨403, "No tienes permiso para ver esta calificación", []⟩)) ∧
    (∀ tid t, db.getUser tid = some t →
      get_role_enum db t.role_id = Except.ok Role.student →
      (u.user_id = tid → scores_por_estudiante db u tid =
        Except.ok (db.scores.filter (fun s => s.student_id == tid))) ∧
      (u.user_id ≠ tid → scores_por_estudiante db u tid =
        Except.error ⟨403, "Solo puedes ver tus propias calificaciones", []⟩)) := by
  constructor
  · intro sid s hs
    constructor
    · intro heq
      unfold get_score
      simp [Except.instMonad, Except.bind, hs, hrole, heq]
    · intro hne
      unfold get_score
      simp [Except.instMonad, Except.bind, hs, hrole, hne]
  · intro tid t ht hstu
    constructor
    · intro heq
      unfold scores_por_estudiante
      simp [Except.instMonad, Except.bind, ht, hstu, hrole, heq]
    · intro hne
      unfold scores_por_estudiante
      simp [Except.instMonad, Except.bind, ht, hstu, hrole, hne]

/-- Witness for C2 (amended): alice reads her own score in db0, and is
denied eve's scores in db1 with 403. -/
theorem student_read_access_witness :
    (get_score db0 (mkUser 1 "alice" 1) 1 =
      Except.ok ⟨1, "exam", 90, none, none, 1, 2, 1⟩) ∧
    (scores_por_estudiante db1 (mkUser 1 "alice" 1) 5 =
      Except.error ⟨403, "Solo puedes ver tus propias calificaciones", []⟩) := by
  constructor
  · exact ((student_read_access db0 (mkUser 1 "alice" 1) rfl).1 1
      ⟨1, "exam", 90, none, none, 1, 2, 1⟩ rfl).1 rfl
  · exact ((student_read_access db1 (mkUser 1 "alice" 1) rfl).2 5 (mkUser 5 "eve" 1)
      rfl rfl).2 (by decide)

/-! ### Claim C5 -/

/-- C5: a successful /token login returns a JWT signed with SECRET_KEY
under ALGORITHM whose payload carries exactly sub = the user's
name_user, user_id = the user's numeric id, role = the role resolved
from the user's role_id, and exp = now plus
ACCESS_TOKEN_EXPIRE_MINUTES minutes. -/
theorem login_token_payload (db : DB) (s : Settings) (ctx : CryptContext)
    (now : Nat) (username password : String) :
    (∀ user rr,
      db.users.find? (fun x => x.name_user == username) = some user →
      ctx.verify password user.hashed_password = true →
      db.roles.find? (fun r => r.role_id == user.role_id) = some rr →
      login_for_access_token db s ctx now username password =
        Except.ok ⟨JWTToken.signed
          ⟨some user.name_user, some user.user_id, some rr.role,
            now + 60 * s.ACCESS_TOKEN_EXPIRE_MINUTES⟩
          s.SECRET_KEY s.ALGORITHM, "bearer"⟩) ∧
    (∀ t, login_for_access_token db s ctx now username password = Except.ok t →
      ∃ user rr,
        db.users.find? (fun x => x.name_user == username) = some user ∧
        ctx.verify password user.hashed_password = true ∧
        db.roles.find? (fun r => r.role_id == user.role_id) = some rr ∧
        t = ⟨JWTToken.signed
          ⟨some user.name_user, some user.user_id, some rr.role,
            now + 60 * s.ACCESS_TOKEN_EXPIRE_MINUTES⟩
          s.SECRET_KEY s.ALGORITHM, "bearer"⟩) := by
  constructor
  · intro user rr hfind hverify hrr
    unfold login_for_access_token
    rw [hfind]
    simp [hverify, hrr, create_access_token]
  · intro t h
    unfold login_for_access_token at h
    rcases hfind : db.users.find? (fun x => x.name_user == username) with _ | user <;>
      rw [hfind] at h
    · exact absurd h (by simp)
    · simp only [] at h
      rcases hv : ctx.verify password user.hashed_password with _ | _ <;> rw [hv] at h
      · simp at h
      · rw [if_neg (by simp)] at h
        rcases hrr : db.roles.find? (fun r => r.role_id == user.role_id) with _ | rr <;>
          rw [hrr] at h
        · exact absurd h (by simp)
        · injection h with h
          exact ⟨user, rr, hfind, hv, hrr, h.symm⟩

/-- Witness for C5: alice logs in against db0 and receives the signed
token with her name, id 1, STUDENT role and a 30-minute expiry. -/
theorem login_token_payload_witness :
    login_for_access_token db0 settings0 ctx0 1000 "alice" "pw" =
      Except.ok ⟨JWTToken.signed ⟨some "alice", some 1, some Role.student, 1000 + 60 * 30⟩
        "secret" "HS256", "bearer"⟩ :=
  (login_token_payload db0 settings0 ctx0 1000 "alice" "pw").1 (mkUser 1 "alice" 1)
    ⟨1, Role.student⟩ rfl rfl rfl

/-! ### Claim C6 -/

/-- C6: /token issues a token exactly when a user with the submitted
username exists and the password verifies against their stored hash;
otherwise it fails with HTTP 401 carrying a WWW-Authenticate: Bearer
header.  The hypothesis that every user's role_id resolves in the
role_user table holds in reachable states, where users are only created
through get_role_id. -/
theorem login_iff (db : DB) (s : Settings) (ctx : CryptContext) (now : Nat)
    (username password : String)
    (hroles : ∀ x ∈ db.users, db.roles.any (fun r => r.role_id == x.role_id) = true) :
    ((∃ t, login_for_access_token db s ctx now username password = Except.ok t) ↔
      (∃ user, db.users.find? (fun x => x.name_user == username) = some user ∧
        ctx.verify password user.hashed_password = true)) ∧
    ((¬ ∃ user, db.users.find? (fun x => x.name_user == username) = some user ∧
        ctx.verify password user.hashed_password = true) →
      login_for_access_token db s ctx now username password =
        Except.error ⟨401, "Credenciales inválidas", [("WWW-Authenticate", "Bearer")]⟩) := by
  rcases hfind : db.users.find? (fun x => x.name_user == username) with _ | user
  · constructor
    · constructor
      · rintro ⟨t, ht⟩
        unfold login_for_access_token at ht
        rw [hfind] at ht
        exact absurd ht (by simp)
      · rintro ⟨user, hu, _⟩
        rw [hfind] at hu
        exact Option.noConfusion hu
    · intro _
      unfold login_for_access_token
      rw [hfind]
  · rcases hv : ctx.verify password user.hashed_password with _ | _
    · have herr : login_for_access_token db s ctx now username password =
          Except.error ⟨401, "Credenciales inválidas", [("WWW-Authenticate", "Bearer")]⟩ := by
        unfold login_for_access_token
        rw [hfind]
        simp [hv]
      constructor
      · constructor
        · rintro ⟨t, ht⟩
          rw [herr] at ht
          exact absurd ht (by simp)
        · rintro ⟨user', hu, hv'⟩
          rw [hfind] at hu
          injection hu with hu
          subst hu
          rw [hv] at hv'
          exact absurd hv' (by simp)
      · intro _
        exact herr
    · have hmem : user ∈ db.users := List.mem_of_find?_eq_some hfind
      have hany := hroles user hmem
      rw [List.any_eq_true] at hany
      have hsome : (db.roles.find? (fun r => r.role_id == user.role_id)).isSome := by
        rw [List.find?_isSome]
        obtain ⟨r, hr, hpr⟩ := hany
        exact ⟨r, hr, hpr⟩
      rcases hrr : db.roles.find? (fun r => r.role_id == user.role_id) with _ | rr
      · rw [hrr] at hsome
        exact absurd hsome (by simp)
      · have hok : login_for_access_token db s ctx now username password =
            Except.ok ⟨JWTToken.signed
              ⟨some user.name_user, some user.user_id, some rr.role,
                now + 60 * s.ACCESS_TOKEN_EXPIRE_MINUTES⟩
              s.SECRET_KEY s.ALGORITHM, "bearer"⟩ := by
          unfold login_for_access_token
          rw [hfind]
          simp [hv, hrr, create_access_token]
        constructor
        · constructor
          · intro _
            exact ⟨user, hfind, hv⟩
          · intro _
            exact ⟨_, hok⟩
        · intro hneg
          exact absurd ⟨user, hfind, hv⟩ hneg

/-- Witness for C6: a wrong password for alice against db0 yields the
401 with the WWW-Authenticate header. -/
theorem login_iff_witness :
    login_for_access_token db0 settings0 ctx0 1000 "alice" "bad" =
      Except.error ⟨401, "Credenciales inválidas", [("WWW-Authenticate", "Bearer")]⟩ := by
  refine (login_iff db0 settings0 ctx0 1000 "alice" "bad" (by decide)).2 ?_
  rintro ⟨user, h1, h2⟩
  have h0 : db0.users.find? (fun x => x.name_user == "alice") =
      some (mkUser 1 "alice" 1) := rfl
  rw [h0] at h1
  injection h1 with h1
  subst h1
  exact absurd h2 (by decide)

/-! ### Claim C8 -/

/-- C8: get_optional_admin_or_anon never blocks a request: it returns
the user exactly for a decodable token of an existing ADMIN user, and
anonymous access (none) in every other case — no header, empty token,
undecodable token, unknown user, or a valid non-ADMIN user, whose
internally raised 403 the enclosing except swallows — and create_user's
behaviour does not depend on the injected current_user at all. -/
theorem optional_admin_or_anon_spec (db : DB) (s : Settings) (now : Nat)
    (auth : Option AuthHeader) :
    (∀ u, get_optional_admin_or_anon db s now auth = some u ↔
      (∃ scheme tok, auth = some ⟨scheme, some tok⟩ ∧
        get_current_user db s now tok = Except.ok u ∧
        get_role_enum db u.role_id = Except.ok Role.admin)) ∧
    (∀ scheme tok u r, auth = some ⟨scheme, some tok⟩ →
      get_current_user db s now tok = Except.ok u →
      get_role_enum db u.role_id = Except.ok r → r ≠ Role.admin →
      get_optional_admin_or_anon db s now auth = none) ∧
    (∀ today ctx cu₁ cu₂ uc,
      create_user db today ctx cu₁ uc = create_user db today ctx cu₂ uc) := by
  refine ⟨?_, ?_, ?_⟩
  · intro u
    constructor
    · intro h
      unfold get_optional_admin_or_anon at h
      rcases auth with _ | ⟨scheme, tok?⟩
      · exact Option.noConfusion h
      · rcases tok? with _ | tok
        · exact Option.noConfusion h
        · simp only [] at h
          rcases hgcu : get_current_user db s now tok with e | u' <;> rw [hgcu] at h <;>
            simp only [Except.instMonad, Except.bind] at h
          · exact Option.noConfusion h
          · rcases hre : get_role_enum db u'.role_id with e | r <;> rw [hre] at h <;>
              simp only [Except.instMonad, Except.bind] at h
            · exact Option.noConfusion h
            · by_cases hr : r = Role.admin
              · subst hr
                simp only [ne_eq, not_true_eq_false, if_false, ite_false] at h
                have hu : u' = u := by
                  simpa using h
                subst hu
                exact ⟨scheme, tok, rfl, hgcu, hre⟩
              · rw [if_pos hr] at h
                exact Option.noConfusion h
    · rintro ⟨scheme, tok, rfl, hgcu, hre⟩
      unfold get_optional_admin_or_anon
      simp only []
      rw [hgcu]
      simp [Except.instMonad, Except.bind, hre]
  · intro scheme tok u r hauth hgcu hre hr
    subst hauth
    unfold get_optional_admin_or_anon
    simp only []
    rw [hgcu]
    simp [Except.instMonad, Except.bind, hre, hr]
  · intro today ctx cu₁ cu₂ uc
    rfl

/-- Witness for C8: a valid professor token (bob) is converted to
anonymous access rather than an error. -/
theorem optional_admin_or_anon_spec_witness :
    get_optional_admin_or_anon db0 settings0 1000
      (some ⟨"Bearer", some (JWTToken.signed
        ⟨some "bob", some 2, some Role.professor, 2000⟩ "secret" "HS256")⟩) = none :=
  (optional_admin_or_anon_spec db0 settings0 1000 _).2.1 "Bearer"
    (JWTToken.signed ⟨some "bob", some 2, some Role.professor, 2000⟩ "secret" "HS256")
    (mkUser 2 "bob" 2) Role.professor rfl rfl rfl (by decide)

end App
